import Mathlib

/-!
Verification of the HA-Autopilot pattern-mining engine.

This file gives a shallow embedding, in Lean 4, of the parts of the
HA-Autopilot source that the specification's claims are about:

* `src/phase2/context_builder.py`  (derived features / time buckets),
* `src/phase2/pattern_validator.py` (score adjustments),
* `src/phase2/noise_filter.py`     (flap detection and quality scores),
* `src/phase2/association_miner.py` (transaction windows, rule filtering),
* `src/phase2/sequence_miner.py`   (typical gaps),
* `src/phase2/temporal_analyzer.py` (schedule and solar confidence),
* `src/phase2/sequential_analyzer.py` (Wilson-interval confidence),
* `src/phase2/pattern_engine.py`   (run orchestration and error handling),
* `src/phase2/pattern_storage.py`  (canonical pattern hash and upsert).

Python floats are modelled as rationals, Python ints as `Int`/`Nat`,
fallible code as `Except`/`Option`.  Each embedded definition carries the
name of the Python function it translates.
-/

/-! ## Python numeric primitives -/

/-- Round-half-to-even on rationals, the tie-breaking rule used by Python's
built-in `round`. -/
def roundHalfEven (x : ℚ) : ℤ :=
  let f := ⌊x⌋
  let r := x - (f : ℚ)
  if r < 1/2 then f
  else if 1/2 < r then f + 1
  else if f % 2 = 0 then f else f + 1

/-- Python's `round(x, n)` on rationals (banker's rounding at `n` decimal
places). -/
def pyRound (x : ℚ) (n : ℕ) : ℚ :=
  (roundHalfEven (x * 10 ^ n) : ℚ) / 10 ^ n

/-- Python's `int(x)`: truncation toward zero. -/
def pyInt (x : ℚ) : ℤ :=
  if 0 ≤ x then ⌊x⌋ else -⌊-x⌋

theorem roundHalfEven_nonneg {x : ℚ} (hx : 0 ≤ x) : 0 ≤ roundHalfEven x := by
  unfold roundHalfEven
  have h0 : (0 : ℤ) ≤ ⌊x⌋ := Int.floor_nonneg.2 hx
  dsimp only
  split_ifs <;> omega

theorem roundHalfEven_le {x : ℚ} {B : ℤ} (hx : x ≤ (B : ℚ)) :
    roundHalfEven x ≤ B := by
  unfold roundHalfEven
  have hfB : ⌊x⌋ ≤ B := by
    have := Int.floor_mono hx
    simpa using this
  dsimp only
  split_ifs with h1 h2 h3
  · exact hfB
  · -- here 1/2 < x - ⌊x⌋, so ⌊x⌋ < x ≤ B and hence ⌊x⌋ + 1 ≤ B
    have hlt : (⌊x⌋ : ℚ) < x := by linarith
    have : ⌊x⌋ < B := by
      rcases lt_or_eq_of_le hfB with h | h
      · exact h
      · exfalso; rw [h] at hlt; exact absurd (lt_of_lt_of_le hlt hx) (lt_irrefl _)
    omega
  · exact hfB
  · -- the tie case, x - ⌊x⌋ = 1/2, so again ⌊x⌋ < x ≤ B
    have hr : x - (⌊x⌋ : ℚ) = 1/2 := le_antisymm (not_lt.1 h2) (not_lt.1 h1)
    have hlt : (⌊x⌋ : ℚ) < x := by linarith
    have : ⌊x⌋ < B := by
      rcases lt_or_eq_of_le hfB with h | h
      · exact h
      · exfalso; rw [h] at hlt; exact absurd (lt_of_lt_of_le hlt hx) (lt_irrefl _)
    omega

theorem pyRound_nonneg {x : ℚ} (hx : 0 ≤ x) (n : ℕ) : 0 ≤ pyRound x n := by
  unfold pyRound
  have h1 : (0 : ℤ) ≤ roundHalfEven (x * 10 ^ n) :=
    roundHalfEven_nonneg (by positivity)
  have h2 : (0 : ℚ) ≤ (roundHalfEven (x * 10 ^ n) : ℚ) := by exact_mod_cast h1
  positivity

theorem pyRound_le_one {x : ℚ} (hx : x ≤ 1) (n : ℕ) : pyRound x n ≤ 1 := by
  unfold pyRound
  have h1 : roundHalfEven (x * 10 ^ n) ≤ (10 : ℤ) ^ n := by
    apply roundHalfEven_le
    push_cast
    have hp : (0 : ℚ) < 10 ^ n := by positivity
    nlinarith
  rw [div_le_one (by positivity)]
  exact_mod_cast h1

/-! ## ContextBuilder (`src/phase2/context_builder.py`) -/

namespace ContextBuilder

/-- An event as seen by `add_derived_features`: the fields the function
reads.  `concurrent_states` is the entity-to-state snapshot map. -/
structure CEvent where
  entity_id : String
  hour : ℕ
  concurrent_states : List (String × String)
deriving DecidableEq, Repr

/-- Result fields written by `add_derived_features`. -/
structure DerivedFeatures where
  time_bucket : String
  people_home : ℕ
  anyone_home : Bool
deriving DecidableEq, Repr

/-- Embedding of `ContextBuilder.add_derived_features`
(`src/phase2/context_builder.py`, lines 117-148): the time-of-day bucket
chain and the presence counts. -/
def add_derived_features (event : CEvent) : DerivedFeatures :=
  let hour := event.hour
  let bucket :=
    if 5 ≤ hour ∧ hour < 9 then "early_morning"
    else if 9 ≤ hour ∧ hour < 12 then "morning"
    else if 12 ≤ hour ∧ hour < 14 then "midday"
    else if 14 ≤ hour ∧ hour < 17 then "afternoon"
    else if 17 ≤ hour ∧ hour < 20 then "evening"
    else if 20 ≤ hour ∧ hour < 23 then "night"
    else "late_night"
  let home_count :=
    (event.concurrent_states.filter
      (fun kv => kv.1.startsWith "person." && kv.2 == "home")).length
  { time_bucket := bucket
    people_home := home_count
    anyone_home := home_count > 0 }

/-- The claim's description of the bucket table, written from the claim's
own interval phrasing (hours 5-8, 9-11, 12-13, 14-16, 17-19, 20-22, and
all remaining hours), for comparison against the code's chain. -/
def claimTimeBucket (hour : ℕ) : String :=
  if 5 ≤ hour ∧ hour ≤ 8 then "early_morning"
  else if 9 ≤ hour ∧ hour ≤ 11 then "morning"
  else if 12 ≤ hour ∧ hour ≤ 13 then "midday"
  else if 14 ≤ hour ∧ hour ≤ 16 then "afternoon"
  else if 17 ≤ hour ∧ hour ≤ 19 then "evening"
  else if 20 ≤ hour ∧ hour ≤ 22 then "night"
  else "late_night"

end ContextBuilder

/-- C10: `add_derived_features` assigns `time_bucket` as a total function of
the hour field alone, and that function agrees with the claim's table:
5-8 early_morning, 9-11 morning, 12-13 midday, 14-16 afternoon,
17-19 evening, 20-22 night, everything else (23 and 0-4) late_night. -/
theorem C10_time_bucket_table :
    (∀ e : ContextBuilder.CEvent,
      (ContextBuilder.add_derived_features e).time_bucket =
        ContextBuilder.claimTimeBucket e.hour) ∧
    (∀ e₁ e₂ : ContextBuilder.CEvent, e₁.hour = e₂.hour →
      (ContextBuilder.add_derived_features e₁).time_bucket =
        (ContextBuilder.add_derived_features e₂).time_bucket) := by
  have key : ∀ e : ContextBuilder.CEvent,
      (ContextBuilder.add_derived_features e).time_bucket =
        ContextBuilder.claimTimeBucket e.hour := by
    intro e
    unfold ContextBuilder.add_derived_features ContextBuilder.claimTimeBucket
    dsimp only
    split_ifs <;> first | rfl | omega
  refine ⟨key, ?_⟩
  intro e₁ e₂ h
  rw [key, key, h]

/-- Witness for C10 at a concrete event: hour 8 is early_morning on both
the code's chain and the claim's table. -/
theorem C10_time_bucket_table_witness :
    (ContextBuilder.add_derived_features ⟨"light.x", 8, []⟩).time_bucket =
      (ContextBuilder.add_derived_features ⟨"switch.y", 8, [("a", "b")]⟩).time_bucket := by
  exact C10_time_bucket_table.2 ⟨"light.x", 8, []⟩ ⟨"switch.y", 8, [("a", "b")]⟩ rfl

/-! ## PatternValidator (`src/phase2/pattern_validator.py`) -/

namespace PatternValidator

/-- Contiguous-substring test on character lists: `needle` occurs somewhere
inside `hay`. -/
def containsSub (needle : List Char) : List Char → Bool
  | [] => needle.isEmpty
  | c :: rest => needle.isPrefixOf (c :: rest) || containsSub needle rest

/-- Python's `needle in haystack` on strings: contiguous substring test. -/
def pyIn (needle hay : String) : Bool :=
  containsSub needle.data hay.data

/-- Python's `str.lower()`, character-wise (the entity ids and states in
play are ASCII). -/
def pyLower (s : String) : String :=
  String.mk (s.data.map Char.toLower)

/-- A trigger condition as the validator reads it: `entity_id` and `state`
via `.get(..., "")`, so missing keys become the empty string. -/
structure VTrigger where
  entity_id : String
  state : String
deriving DecidableEq, Repr

/-- A pattern as the validator reads it.  `action_entity`/`action_state`
model `action_target.get("entity_id"/"state", "")`; `conviction` is
`Option` because sequence and temporal patterns carry no conviction key. -/
structure VPattern where
  pattern_type : String
  trigger_conditions : List VTrigger
  action_entity : String
  action_state : String
  confidence : ℚ
  support : ℚ
  conviction : Option ℚ
  pattern_score : ℚ
  occurrence_count : ℕ
  recommendation : Option String
deriving DecidableEq, Repr

/-- `ValidationRules.ANTI_PATTERN_KEYWORDS`. -/
def ANTI_PATTERN_KEYWORDS : List String :=
  ["unavailable", "unknown", "automations.", "script."]

/-- `PatternValidator._matches_anti_pattern`. -/
def matchesAntiPattern (entity_id state : String) : Bool :=
  ANTI_PATTERN_KEYWORDS.any fun keyword =>
    pyIn keyword (pyLower entity_id) || pyIn keyword (pyLower state)

/-- `PatternValidator._contains_anti_pattern_keywords`. -/
def containsAntiPatternKeywords (p : VPattern) : Bool :=
  p.trigger_conditions.any (fun t => matchesAntiPattern t.entity_id t.state) ||
    matchesAntiPattern p.action_entity p.action_state

/-- `PatternValidator._is_circular_pattern`. -/
def isCircularPattern (p : VPattern) : Bool :=
  p.trigger_conditions.any fun t => t.entity_id == p.action_entity

/-- `PatternValidator._is_anti_pattern`. -/
def isAntiPattern (p : VPattern) : Bool :=
  containsAntiPatternKeywords p || isCircularPattern p

/-- `PatternValidator._is_safety_entity` with the default empty
`safety_entities` list. -/
def isSafetyEntity (entity_id : String) : Bool :=
  entity_id.startsWith "lock." ||
    (["garage", "door"].any fun keyword => pyIn keyword (pyLower entity_id))

/-- `PatternValidator._fails_safety_check`. -/
def failsSafetyCheck (p : VPattern) : Bool :=
  isSafetyEntity p.action_entity && decide (p.confidence < 90/100)

/-- `PatternValidator._too_broad`. -/
def tooBroad (p : VPattern) : Bool :=
  decide (p.support > 40/100)

/-- `PatternValidator._too_specific`. -/
def tooSpecific (p : VPattern) : Bool :=
  decide (p.support < 2/100) && decide (p.occurrence_count < 3)

/-- `PatternValidator._check_pattern_validity`: the first failed check's
rejection reason, if any. -/
def checkPatternValidity (p : VPattern) : Option String :=
  if isAntiPattern p then some "anti_pattern"
  else if failsSafetyCheck p then some "safety_check"
  else if tooBroad p then some "too_broad"
  else if tooSpecific p then some "too_specific"
  else none

/-- `PatternValidator._calculate_simplicity_bonus`. -/
def calculateSimplicityBonus (p : VPattern) : ℚ :=
  if p.trigger_conditions.length ≤ 2 then 5/100 else 0

/-- `PatternValidator._calculate_conviction_penalty`: note the source reads
`pattern.get("conviction", 1.0)`, so an absent conviction defaults to 1.0. -/
def calculateConvictionPenalty (p : VPattern) : ℚ :=
  let conviction := p.conviction.getD 1
  if conviction < 3/2 then 10/100 else 0

/-- `PatternValidator._clamp_score`: clamp to [0,1] and round to 3 places. -/
def clampScore (score : ℚ) : ℚ :=
  pyRound (max 0 (min 1 score)) 3

/-- `PatternValidator._recalculate_score`. -/
def recalculateScore (p : VPattern) : VPattern :=
  let adjustments := calculateSimplicityBonus p - calculateConvictionPenalty p
  { p with pattern_score := clampScore (p.pattern_score + adjustments) }

/-- `PatternValidator._determine_recommendation`. -/
def determineRecommendation (p : VPattern) : String :=
  if p.pattern_score ≥ 85/100 then "auto_suggest"
  else if p.pattern_score ≥ 70/100 then "suggest"
  else "review"

/-- `PatternValidator._validate_single_pattern` with no
`existing_automations` (the engine's call passes none). -/
def validateSinglePattern (p : VPattern) : Option VPattern :=
  match checkPatternValidity p with
  | some _ => none
  | none =>
    let p := recalculateScore p
    if p.pattern_score < 50/100 then none
    else some { p with recommendation := some (determineRecommendation p) }

/-- `PatternValidator._sort_by_score`: descending, stable. -/
def sortByScore (patterns : List VPattern) : List VPattern :=
  patterns.insertionSort fun a b => a.pattern_score ≥ b.pattern_score

/-- `PatternValidator.validate_patterns`. -/
def validatePatterns (patterns : List VPattern) : List VPattern :=
  sortByScore (patterns.filterMap validateSinglePattern)

end PatternValidator

/-- A concrete sequence-style pattern with no conviction metric: one
trigger, base score 0.50. -/
def seqPatternNoConviction : PatternValidator.VPattern :=
  { pattern_type := "sequence"
    trigger_conditions := [⟨"binary_sensor.motion", "on"⟩]
    action_entity := "light.hall"
    action_state := "on"
    confidence := 8/10
    support := 1/10
    conviction := none
    pattern_score := 1/2
    occurrence_count := 5
    recommendation := none }

/-- C3 counterexample: the claim says a pattern with no conviction metric
receives no conviction penalty, so this one-trigger pattern at base score
0.50 should be adjusted to 0.50 + 0.05 = 0.55.  The code defaults the
missing conviction to 1.0 < 1.5 and subtracts 0.10, giving 0.45. -/
theorem C3_conviction_penalty_counterexample :
    seqPatternNoConviction.conviction = none ∧
    PatternValidator.calculateConvictionPenalty seqPatternNoConviction = 10/100 ∧
    (PatternValidator.recalculateScore seqPatternNoConviction).pattern_score = 45/100 ∧
    (45/100 : ℚ) ≠ 55/100 := by
  refine ⟨rfl, ?_, ?_, by norm_num⟩
  · norm_num [PatternValidator.calculateConvictionPenalty, seqPatternNoConviction]
  · norm_num [PatternValidator.recalculateScore, PatternValidator.calculateSimplicityBonus,
      PatternValidator.calculateConvictionPenalty, PatternValidator.clampScore,
      seqPatternNoConviction, pyRound, roundHalfEven]

/-- C3 amended: the 0.10 penalty is subtracted exactly when the pattern's
conviction — defaulting to 1.0 when the metric is absent — is below 1.5, so
a pattern with no conviction metric always receives the penalty; the 0.05
bonus is added exactly when the pattern has at most 2 trigger conditions;
and the adjusted score is clamped to [0,1]. -/
theorem C3_score_adjustments_amended :
    (∀ p : PatternValidator.VPattern, p.conviction = none →
      PatternValidator.calculateConvictionPenalty p = 10/100) ∧
    (∀ (p : PatternValidator.VPattern) (c : ℚ), p.conviction = some c →
      PatternValidator.calculateConvictionPenalty p =
        (if c < 3/2 then 10/100 else 0)) ∧
    (∀ p : PatternValidator.VPattern,
      PatternValidator.calculateSimplicityBonus p =
        (if p.trigger_conditions.length ≤ 2 then 5/100 else 0)) ∧
    (∀ p : PatternValidator.VPattern,
      0 ≤ (PatternValidator.recalculateScore p).pattern_score ∧
        (PatternValidator.recalculateScore p).pattern_score ≤ 1) := by
  refine ⟨?_, ?_, ?_, ?_⟩
  · intro p hp
    unfold PatternValidator.calculateConvictionPenalty
    rw [hp]
    norm_num
  · intro p c hp
    unfold PatternValidator.calculateConvictionPenalty
    rw [hp]
    rfl
  · intro p
    rfl
  · intro p
    unfold PatternValidator.recalculateScore PatternValidator.clampScore
    dsimp only
    constructor
    · exact pyRound_nonneg (le_max_left 0 _) 3
    · exact pyRound_le_one (max_le (by norm_num) (min_le_left 1 _)) 3

/-- Witness for C3's amended theorem at concrete patterns: the
no-conviction pattern gets the 0.10 penalty and the 0.05 bonus, and its
adjusted score lies in [0,1]. -/
theorem C3_score_adjustments_amended_witness :
    PatternValidator.calculateConvictionPenalty seqPatternNoConviction = 10/100 ∧
    PatternValidator.calculateSimplicityBonus seqPatternNoConviction =
      (if seqPatternNoConviction.trigger_conditions.length ≤ 2 then 5/100 else 0) ∧
    (0 ≤ (PatternValidator.recalculateScore seqPatternNoConviction).pattern_score ∧
      (PatternValidator.recalculateScore seqPatternNoConviction).pattern_score ≤ 1) :=
  ⟨C3_score_adjustments_amended.1 seqPatternNoConviction rfl,
   C3_score_adjustments_amended.2.2.1 seqPatternNoConviction,
   C3_score_adjustments_amended.2.2.2 seqPatternNoConviction⟩

/-! ## SequenceMiner (`src/phase2/sequence_miner.py`) -/

namespace SequenceMiner

/-- The `SequenceTiming` dataclass: start timestamp, per-step gaps
(`int(...)`-truncated seconds), total duration. -/
structure SequenceTiming where
  start_time : ℚ
  gaps : List ℤ
  total_duration : ℤ
deriving DecidableEq, Repr

/-- The `SequenceStep` dataclass. -/
structure SequenceStep where
  entity_id : String
  state : String
  typical_delay_seconds : Option ℤ
deriving DecidableEq, Repr

/-- `SequenceMiner._calculate_typical_gaps`: for each gap position, the
Python source computes `int(sum(gaps_at_position) / len(gaps_at_position))`
— a truncated arithmetic mean.  All recorded occurrences of one sequence
key have gap lists of the same length; `getD` stands in for the plain
index access. -/
def calculateTypicalGaps (timings : List SequenceTiming) : List ℤ :=
  match timings with
  | [] => []
  | t0 :: _ =>
    (List.range t0.gaps.length).map fun gap_idx =>
      let gaps_at_position := timings.map fun t => t.gaps.getD gap_idx 0
      pyInt ((gaps_at_position.sum : ℚ) / gaps_at_position.length)

/-- `SequenceMiner._attach_delays_to_steps`: step `i` (for `i ≥ 1`)
receives `typical_gaps[i-1]`. -/
def attachDelaysToSteps (steps : List SequenceStep) (typical_gaps : List ℤ) :
    List SequenceStep :=
  steps.mapIdx fun i step =>
    if i = 0 then step
    else { step with typical_delay_seconds := some (typical_gaps.getD (i - 1) 0) }

/-- Modelled from the spec: the median of a list of integer gaps (middle
element of the sorted list, or the mean of the two middle elements), the
quantity the spec and the source's own docstring say `typical_delay_seconds`
carries. -/
def medianOfGaps (values : List ℤ) : ℚ :=
  let sorted := values.insertionSort (· ≤ ·)
  let n := sorted.length
  if n = 0 then 0
  else if n % 2 = 1 then (sorted.getD (n / 2) 0 : ℚ)
  else ((sorted.getD (n / 2 - 1) 0 : ℚ) + (sorted.getD (n / 2) 0 : ℚ)) / 2

end SequenceMiner

/-- C9: the claim (and the source's own docstring, "Typical gap durations
(median)") says the delay attached at position k is the median of the k-th
gaps across occurrences.  For occurrences with first gaps 10, 10, 100 the
median is 10, but `_calculate_typical_gaps` computes the truncated mean
int(120/3) = 40, which `_attach_delays_to_steps` then attaches to the
second step. -/
theorem C9_typical_gap_is_mean_not_median :
    SequenceMiner.calculateTypicalGaps
      [⟨0, [10], 10⟩, ⟨86400, [10], 10⟩, ⟨172800, [100], 100⟩] = [40] ∧
    SequenceMiner.medianOfGaps [10, 10, 100] = 10 ∧
    SequenceMiner.attachDelaysToSteps
      [⟨"light.a", "on", none⟩, ⟨"light.b", "on", none⟩] [40] =
      [⟨"light.a", "on", none⟩, ⟨"light.b", "on", some 40⟩] ∧
    (40 : ℚ) ≠ 10 := by
  refine ⟨?_, ?_, ?_, by norm_num⟩
  · norm_num [SequenceMiner.calculateTypicalGaps, List.range, List.range.loop, pyInt]
  · norm_num [SequenceMiner.medianOfGaps, List.insertionSort, List.orderedInsert]
  · norm_num [SequenceMiner.attachDelaysToSteps]

/-! ## TemporalAnalyzer (`src/phase2/temporal_analyzer.py`) -/

namespace TemporalAnalyzer

/-- First-occurrence-ordered list of distinct keys, the key order a Python
`defaultdict` grouping iterates in. -/
def firstUniquesAux {κ : Type} [DecidableEq κ] (seen : List κ) : List κ → List κ
  | [] => []
  | k :: rest =>
    if seen.contains k then firstUniquesAux seen rest
    else k :: firstUniquesAux (k :: seen) rest

/-- Distinct keys in first-occurrence order. -/
def firstUniques {κ : Type} [DecidableEq κ] (l : List κ) : List κ :=
  firstUniquesAux [] l

/-- Grouping by a key, keys in first-occurrence order, each group keeping
the original element order — the behaviour of the Python
`defaultdict(list)` grouping loops. -/
def groupByKey {α κ : Type} [DecidableEq κ] (key : α → κ) (xs : List α) :
    List (κ × List α) :=
  (firstUniques (xs.map key)).map fun k => (k, xs.filter fun x => key x = k)

/-- An event as the temporal analyzer reads it. -/
structure TEvent where
  entity_id : String
  new_state : String
  timestamp : ℚ
  sun_position : Option String
deriving DecidableEq, Repr

/-- Rational square root used to model Python's `math.sqrt`.  It is exact
on squares of rationals (every use reached by the theorems below has a
perfect-square argument). -/
def ratSqrt (q : ℚ) : ℚ :=
  (Nat.sqrt (q.num.toNat * q.den) : ℚ) / (q.den : ℚ)

/-- Time of day in whole seconds, modelling
`dt = datetime.fromtimestamp(ts); dt.hour*3600 + dt.minute*60 + dt.second`
for a UTC environment. -/
def timeOfDay (ts : ℚ) : ℚ :=
  ((⌊ts⌋ % 86400 : ℤ) : ℚ)

/-- `TemporalConfig.VALID_STATES`. -/
def VALID_STATES : List String :=
  ["on", "off", "open", "closed", "locked", "unlocked"]

/-- The `TimeCluster` dataclass.  `coefficient_variation` is `none` where
the source stores `float('inf')` (mean 0). -/
structure TimeCluster where
  mean_seconds : ℚ
  std_dev_seconds : ℚ
  coefficient_variation : Option ℚ
  event_count : ℕ
deriving DecidableEq, Repr

/-- `TemporalAnalyzer._extract_times_of_day`. -/
def extractTimesOfDay (events : List TEvent) : List ℚ :=
  events.map fun e => timeOfDay e.timestamp

/-- `TemporalAnalyzer._calculate_time_cluster`.  Callers guarantee a
non-empty event list (`len(events) >= min_occurrences`); on `[]` the
Python source would divide by zero, here `/ 0 = 0`. -/
def calculateTimeCluster (events : List TEvent) : TimeCluster :=
  let times_of_day := extractTimesOfDay events
  let mean_time := times_of_day.sum / (times_of_day.length : ℚ)
  let variance :=
    (times_of_day.map fun t => (t - mean_time) ^ 2).sum / (times_of_day.length : ℚ)
  let std_dev := ratSqrt variance
  { mean_seconds := mean_time
    std_dev_seconds := std_dev
    coefficient_variation := if mean_time > 0 then some (std_dev / mean_time) else none
    event_count := events.length }

/-- `TimeCluster.is_consistent` with the default thresholds
(`time_tolerance = 15*60`, CV threshold 0.3).  A `none` CV models
`float('inf')`, which fails the `< 0.3` comparison. -/
def isConsistent (c : TimeCluster) : Bool :=
  match c.coefficient_variation with
  | none => false
  | some cv => decide (cv < 3/10) && decide (c.std_dev_seconds < 900)

/-- `TemporalAnalyzer._infer_service` (the temporal analyzer's own copy).
`entity_id.split('.')[0]` is the text before the first dot. -/
def inferService (entity_id state : String) : String :=
  let domain := String.mk (entity_id.data.takeWhile fun c => c ≠ '.')
  if domain = "light" ∨ domain = "switch" then domain ++ ".turn_" ++ state
  else if domain = "lock" then "lock." ++ state
  else if domain = "cover" then
    (if state = "open" then "cover.open_cover" else "cover.close_cover")
  else domain ++ ".turn_" ++ state

/-- A temporal pattern as produced by `_create_schedule_pattern` /
`_create_solar_pattern`: the fields the claims reason about.
`trigger_kind` is the `type` of the single trigger condition. -/
structure TPattern where
  pattern_type : String
  trigger_kind : String
  sun_position : Option String
  entity_id : String
  state : String
  service : String
  confidence : ℚ
  support : ℚ
  pattern_score : ℚ
  occurrence_count : ℕ
deriving DecidableEq, Repr

/-- `TemporalAnalyzer._calculate_score` with the default weights. -/
def calculateScore (occurrences : ℕ) (variability : ℚ) : ℚ :=
  let occurrence_score := min ((occurrences : ℚ) / 30) 1
  let consistency_score := 1 - variability
  60/100 * consistency_score + 40/100 * occurrence_score

/-- `TemporalAnalyzer._create_schedule_pattern`.  Only called on clusters
that passed `is_consistent`, so the CV is present. -/
def createSchedulePattern (entity_id state : String) (cluster : TimeCluster) :
    TPattern :=
  let cv := cluster.coefficient_variation.getD 0
  { pattern_type := "temporal"
    trigger_kind := "time"
    sun_position := none
    entity_id := entity_id
    state := state
    service := inferService entity_id state
    confidence := pyRound (1 - cv) 3
    support := (cluster.event_count : ℚ) / 100
    pattern_score := pyRound (calculateScore cluster.event_count cv) 3
    occurrence_count := cluster.event_count }

/-- `TemporalAnalyzer._analyze_schedule_for_state` with the default
`min_occurrences = 10`. -/
def analyzeScheduleForState (entity_id state : String) (events : List TEvent) :
    Option TPattern :=
  if events.length < 10 then none
  else
    let cluster := calculateTimeCluster events
    if isConsistent cluster then some (createSchedulePattern entity_id state cluster)
    else none

/-- `TemporalAnalyzer._find_schedule_patterns`. -/
def findSchedulePatterns (entity_id : String) (events : List TEvent) :
    List TPattern :=
  (groupByKey (fun e => e.new_state) events).filterMap fun g =>
    analyzeScheduleForState entity_id g.1 g.2

/-- `TemporalAnalyzer._calculate_solar_confidence`: the plain proportion of
the state's sun-annotated occurrences that fall at this sun position. -/
def calculateSolarConfidence (matching_events all_solar_events : List TEvent)
    (state : String) : ℚ :=
  let total_in_state := (all_solar_events.filter fun e => e.new_state = state).length
  if total_in_state = 0 then 0
  else (matching_events.length : ℚ) / total_in_state

/-- `TemporalAnalyzer._create_solar_pattern`. -/
def createSolarPattern (entity_id sun_position state : String)
    (matching_events all_solar_events : List TEvent) : Option TPattern :=
  if matching_events.length < 10 then none
  else
    let confidence := calculateSolarConfidence matching_events all_solar_events state
    if confidence < 70/100 then none
    else some
      { pattern_type := "temporal"
        trigger_kind := "sun"
        sun_position := some sun_position
        entity_id := entity_id
        state := state
        service := inferService entity_id state
        confidence := pyRound confidence 3
        support := (matching_events.length : ℚ) / 100
        pattern_score := pyRound (calculateScore matching_events.length (1 - confidence)) 3
        occurrence_count := matching_events.length }

/-- `TemporalAnalyzer._find_solar_patterns` with
`_filter_solar_events` and `_analyze_solar_correlations` inlined as in the
source call chain. -/
def findSolarPatterns (entity_id : String) (events : List TEvent) :
    List TPattern :=
  let solar_events := events.filter fun e => e.sun_position.isSome
  if solar_events.length < 10 then []
  else
    (groupByKey (fun e => (e.sun_position.getD "", e.new_state)) solar_events).filterMap
      fun g => createSolarPattern entity_id g.1.1 g.1.2 g.2 solar_events

/-- `TemporalAnalyzer._analyze_entity_patterns`. -/
def analyzeEntityPatterns (entity_id : String) (events : List TEvent) :
    List TPattern :=
  findSchedulePatterns entity_id events ++ findSolarPatterns entity_id events

/-- `TemporalAnalyzer.analyze_temporal_patterns`. -/
def analyzeTemporalPatterns (events : List TEvent) : List TPattern :=
  let by_entity := groupByKey (fun e => e.entity_id)
    (events.filter fun e => VALID_STATES.contains e.new_state)
  by_entity.flatMap fun g =>
    if g.2.length < 10 then [] else analyzeEntityPatterns g.1 g.2

end TemporalAnalyzer

/-! The Wilson-interval confidence of `src/phase2/sequential_analyzer.py`
(`SequentialAnalyzer._calculate_confidence`), which is NOT used by the
temporal analyzer. -/

namespace SequentialAnalyzer

/-- `SequentialAnalyzer._calculate_confidence`: lower bound of the 95%
Wilson score interval, with the `max(0, 1 - 2/trials)` special case for a
perfect success rate.  `math.sqrt` is modelled by `ratSqrt`. -/
def calculateConfidence (successes trials : ℕ) : ℚ :=
  if trials = 0 then 0
  else
    let p : ℚ := (successes : ℚ) / trials
    if p = 1 then max 0 (1 - 2 / trials)
    else if p = 0 then 0
    else
      let z : ℚ := 196/100
      let denominator := 1 + z ^ 2 / (trials : ℚ)
      let center := (p + z ^ 2 / (2 * (trials : ℚ))) / denominator
      let sqrt_term := max 0 (p * (1 - p) / (trials : ℚ) + z ^ 2 / (4 * (trials : ℚ) ^ 2))
      let margin := (z / denominator) * TemporalAnalyzer.ratSqrt sqrt_term
      max 0 (min 1 (center - margin))

end SequentialAnalyzer

/-- Sum of a rational list all of whose members equal `c`. -/
theorem list_sum_of_all_eq (l : List ℚ) (c : ℚ) (h : ∀ x ∈ l, x = c) :
    l.sum = l.length * c := by
  induction l with
  | nil => simp
  | cons a t ih =>
    have ha : a = c := h a (List.mem_cons_self a t)
    have ht : ∀ x ∈ t, x = c := fun x hx => h x (List.mem_cons_of_mem a hx)
    simp [ha, ih ht]
    ring

/-- Rounding the exact value 1 to three places gives 1. -/
theorem pyRound_one : pyRound 1 3 = 1 := by
  norm_num [pyRound, roundHalfEven]

/-- The square-root model vanishes at zero. -/
theorem ratSqrt_zero : TemporalAnalyzer.ratSqrt 0 = 0 := by
  norm_num [TemporalAnalyzer.ratSqrt]

/-- Ten occurrences of `light.porch -> on`, one per day, each at 07:00:00
with `sun.sun = below_horizon`. -/
def porchEvent (ts : ℚ) : TemporalAnalyzer.TEvent :=
  ⟨"light.porch", "on", ts, some "below_horizon"⟩

/-- A ten-day corpus with a perfect schedule and a perfect solar
correlation for one entity and state. -/
def perfectPorchEvents : List TemporalAnalyzer.TEvent :=
  [porchEvent 25200, porchEvent 111600, porchEvent 198000, porchEvent 284400,
   porchEvent 370800, porchEvent 457200, porchEvent 543600, porchEvent 630000,
   porchEvent 716400, porchEvent 802800]

/-- C8 amended: the temporal analyzer reports plain proportions, not Wilson
lower bounds.  A solar cluster covering every sun-annotated occurrence of
its state (n ≥ 10) is emitted with confidence exactly 1.0; a schedule
cluster with zero deviation (n ≥ 10, all occurrences at the same positive
time of day) is emitted with confidence exactly 1.0.  The
`max(0, 1 − 2/n)` rule for perfect proportions lives only in
`sequential_analyzer._calculate_confidence`, which the temporal analyzer
does not call. -/
theorem C8_proportion_confidence_amended :
    (∀ (ent sun state : String) (matching all_solar : List TemporalAnalyzer.TEvent),
      (all_solar.filter fun e => e.new_state = state) = matching →
      10 ≤ matching.length →
      ∃ p, TemporalAnalyzer.createSolarPattern ent sun state matching all_solar = some p ∧
        p.confidence = 1) ∧
    (∀ (ent state : String) (events : List TemporalAnalyzer.TEvent) (c : ℚ),
      10 ≤ events.length → 0 < c →
      (∀ e ∈ events, TemporalAnalyzer.timeOfDay e.timestamp = c) →
      ∃ p, TemporalAnalyzer.analyzeScheduleForState ent state events = some p ∧
        p.confidence = 1) ∧
    (∀ n : ℕ, 0 < n →
      SequentialAnalyzer.calculateConfidence n n = max 0 (1 - 2 / (n : ℚ))) := by
  refine ⟨?_, ?_, ?_⟩
  · intro ent sun state matching all_solar hfilter hlen
    have hn0 : matching.length ≠ 0 := by omega
    have hnotlt : ¬ matching.length < 10 := by omega
    have hconf : TemporalAnalyzer.calculateSolarConfidence matching all_solar state = 1 := by
      unfold TemporalAnalyzer.calculateSolarConfidence
      rw [hfilter]
      dsimp only
      rw [if_neg hn0]
      exact div_self (Nat.cast_ne_zero.mpr hn0)
    unfold TemporalAnalyzer.createSolarPattern
    rw [if_neg hnotlt]
    dsimp only
    rw [hconf, if_neg (by norm_num)]
    exact ⟨_, rfl, pyRound_one⟩
  · intro ent state events c hlen hc hall
    have hn0 : events.length ≠ 0 := by omega
    have hq0 : ((events.length : ℚ)) ≠ 0 := Nat.cast_ne_zero.mpr hn0
    have htimes : ∀ x ∈ TemporalAnalyzer.extractTimesOfDay events, x = c := by
      intro x hx
      unfold TemporalAnalyzer.extractTimesOfDay at hx
      rcases List.mem_map.1 hx with ⟨e, he, rfl⟩
      exact hall e he
    have hlen_times : (TemporalAnalyzer.extractTimesOfDay events).length = events.length := by
      unfold TemporalAnalyzer.extractTimesOfDay
      exact List.length_map _ _
    have hmean : (TemporalAnalyzer.extractTimesOfDay events).sum /
        ((TemporalAnalyzer.extractTimesOfDay events).length : ℚ) = c := by
      rw [list_sum_of_all_eq _ c htimes, mul_comm, mul_div_assoc, div_self (by
        rw [hlen_times]; exact hq0), mul_one]
    have hclust : TemporalAnalyzer.calculateTimeCluster events =
        ⟨c, 0, some 0, events.length⟩ := by
      unfold TemporalAnalyzer.calculateTimeCluster
      dsimp only
      rw [hmean]
      have hvar : ((TemporalAnalyzer.extractTimesOfDay events).map
          fun t => (t - c) ^ 2).sum /
          ((TemporalAnalyzer.extractTimesOfDay events).length : ℚ) = 0 := by
        have : ∀ x ∈ (TemporalAnalyzer.extractTimesOfDay events).map
            (fun t => (t - c) ^ 2), x = 0 := by
          intro x hx
          rcases List.mem_map.1 hx with ⟨t, ht, rfl⟩
          rw [htimes t ht]
          ring
        rw [list_sum_of_all_eq _ 0 this]
        simp
      rw [hvar, ratSqrt_zero, if_pos hc]
      simp [zero_div]
    unfold TemporalAnalyzer.analyzeScheduleForState
    rw [if_neg (by omega), hclust]
    have hcons : TemporalAnalyzer.isConsistent ⟨c, 0, some 0, events.length⟩ = true := by
      norm_num [TemporalAnalyzer.isConsistent]
    rw [if_pos hcons]
    refine ⟨_, rfl, ?_⟩
    unfold TemporalAnalyzer.createSchedulePattern
    dsimp only [Option.getD]
    rw [show (1 : ℚ) - 0 = 1 by ring]
    exact pyRound_one
  · intro n hn
    have hn0 : n ≠ 0 := Nat.pos_iff_ne_zero.mp hn
    unfold SequentialAnalyzer.calculateConfidence
    rw [if_neg hn0]
    dsimp only
    rw [if_pos (div_self (Nat.cast_ne_zero.mpr hn0))]

/-- C8 counterexample: on ten perfect porch events the temporal analyzer
emits one schedule pattern and one solar pattern, both with confidence
exactly 1.0, not the Wilson-style max(0, 1 − 2/10) = 0.8 the claim
requires. -/
theorem C8_wilson_counterexample :
    (TemporalAnalyzer.analyzeTemporalPatterns perfectPorchEvents).map
      (fun p => p.confidence) = [1, 1] ∧
    max 0 (1 - 2 / (10 : ℚ)) = 4/5 ∧
    (1 : ℚ) ≠ 4/5 := by
  refine ⟨?_, by norm_num, by norm_num⟩
  norm_num +decide [TemporalAnalyzer.analyzeTemporalPatterns, TemporalAnalyzer.groupByKey,
    TemporalAnalyzer.firstUniques, TemporalAnalyzer.firstUniquesAux,
    TemporalAnalyzer.VALID_STATES, TemporalAnalyzer.analyzeEntityPatterns,
    TemporalAnalyzer.findSchedulePatterns, TemporalAnalyzer.analyzeScheduleForState,
    TemporalAnalyzer.calculateTimeCluster, TemporalAnalyzer.extractTimesOfDay,
    TemporalAnalyzer.timeOfDay, TemporalAnalyzer.ratSqrt, TemporalAnalyzer.isConsistent,
    TemporalAnalyzer.createSchedulePattern, TemporalAnalyzer.calculateScore,
    TemporalAnalyzer.inferService, TemporalAnalyzer.findSolarPatterns,
    TemporalAnalyzer.createSolarPattern, TemporalAnalyzer.calculateSolarConfidence,
    pyRound, roundHalfEven, porchEvent, perfectPorchEvents, List.filter, List.filterMap,
    reduceCtorEq, Option.getD_some, Option.getD_none, Option.isSome_some]

/-- Witness for C8's amended theorem at the concrete ten-event corpus. -/
theorem C8_proportion_confidence_amended_witness :
    (∃ p, TemporalAnalyzer.createSolarPattern "light.porch" "below_horizon" "on"
        perfectPorchEvents perfectPorchEvents = some p ∧ p.confidence = 1) ∧
    (∃ p, TemporalAnalyzer.analyzeScheduleForState "light.porch" "on"
        perfectPorchEvents = some p ∧ p.confidence = 1) ∧
    SequentialAnalyzer.calculateConfidence 10 10 = max 0 (1 - 2 / (10 : ℚ)) := by
  refine ⟨C8_proportion_confidence_amended.1 "light.porch" "below_horizon" "on"
      perfectPorchEvents perfectPorchEvents ?_ ?_,
    C8_proportion_confidence_amended.2.1 "light.porch" "on" perfectPorchEvents 25200 ?_
      (by norm_num) ?_,
    C8_proportion_confidence_amended.2.2 10 (by norm_num)⟩
  · decide
  · decide
  · decide
  · decide

/-! ## AssociationMiner (`src/phase2/association_miner.py`) -/

namespace AssociationMiner

/-- `Item.from_string`: parse `"entity:state"` at the first colon
(`split(':', 1)`).  Items always contain a colon by construction. -/
def itemFromString (s : String) : String × String :=
  let pre := s.data.takeWhile fun c => c ≠ ':'
  (String.mk pre, String.mk (s.data.drop (pre.length + 1)))

/-- `ServiceInferrer.infer_service` with its per-domain handlers.
`entity_id.split('.')[0]` is the text before the first dot. -/
def inferService (entity_id state : String) : String :=
  let domain := String.mk (entity_id.data.takeWhile fun c => c ≠ '.')
  if domain = "light" then
    if state = "on" then "light.turn_on"
    else if state = "off" then "light.turn_off"
    else if state ≠ "" ∧ state.data.all Char.isDigit then "light.turn_on"
    else "light.turn_" ++ state
  else if domain = "switch" then "switch.turn_" ++ state
  else if domain = "lock" then "lock." ++ state
  else if domain = "cover" then
    if state = "open" ∨ state = "opening" then "cover.open_cover"
    else if state = "closed" ∨ state = "closing" then "cover.close_cover"
    else "cover." ++ state
  else if domain = "climate" then "climate.set_temperature"
  else if domain = "media_player" then
    if state = "playing" then "media_player.media_play"
    else if state = "paused" ∨ state = "idle" then "media_player.media_pause"
    else "media_player." ++ state
  else domain ++ ".turn_" ++ state

/-- An association rule row as mlxtend's `association_rules` returns it:
item sets plus the support/confidence/lift/conviction metrics. -/
structure AssocRule where
  antecedents : List String
  consequents : List String
  support : ℚ
  confidence : ℚ
  lift : ℚ
  conviction : ℚ
deriving DecidableEq, Repr

/-- Modelled from the spec: the metric formulas of mlxtend's
`association_rules`, as documented in `_rule_to_pattern`'s docstring and
§4.5 of the spec — support = freq(S)/|T|, confidence = freq(S)/freq(A),
lift = confidence/(freq(B)/|T|), conviction = (1−freq(B)/|T|)/(1−confidence).
The library itself is an external collaborator, not part of `src/`. -/
def ruleFromCounts (ants cons : List String) (freqS freqA freqB total : ℕ) :
    AssocRule :=
  let support : ℚ := (freqS : ℚ) / total
  let confidence : ℚ := (freqS : ℚ) / freqA
  let lift : ℚ := confidence / ((freqB : ℚ) / total)
  let conviction : ℚ := (1 - (freqB : ℚ) / total) / (1 - confidence)
  ⟨ants, cons, support, confidence, lift, conviction⟩

/-- Modelled from the spec: mlxtend's `association_rules(frequent_itemsets,
metric="confidence", min_threshold=self.min_confidence)` keeps rules whose
confidence is at least the threshold (default 0.75). -/
def generateAssociationRules (rules : List AssocRule) : List AssocRule :=
  rules.filter fun r => 75/100 ≤ r.confidence

/-- `AssociationMiner._filter_rules` with the default thresholds
`min_lift = 1.2`, `min_conviction = 1.5`. -/
def filterRules (rules : List AssocRule) : List AssocRule :=
  rules.filter fun r => 12/10 ≤ r.lift ∧ 15/10 ≤ r.conviction

/-- `AssociationMiner._parse_consequent`: only single-item consequents
yield an action target. -/
def parseConsequent (consequents : List String) :
    Option (String × String × String) :=
  if consequents.length ≠ 1 then none
  else
    let item := itemFromString (consequents.headD "")
    some (item.1, item.2, inferService item.1 item.2)

/-- An association pattern dictionary as built by `_rule_to_pattern`. -/
structure APattern where
  pattern_type : String
  trigger_conditions : List (String × String)
  action_entity : String
  action_state : String
  action_service : String
  confidence : ℚ
  support : ℚ
  lift : ℚ
  conviction : ℚ
  pattern_score : ℚ
  occurrence_count : ℤ
deriving DecidableEq, Repr

/-- `AssociationMiner._calculate_pattern_score` with the configured
weights and normalization factors. -/
def calculatePatternScore (r : AssocRule) (trigger_count : ℕ) : ℚ :=
  let confidence_score := r.confidence
  let lift_score := min (r.lift / 5) 1
  let conviction_score := min (r.conviction / 5) 1
  let support_score := r.support
  let simplicity_score : ℚ := if trigger_count ≤ 3 then 1 else 1/2
  30/100 * confidence_score + 25/100 * lift_score + 20/100 * conviction_score +
    15/100 * support_score + 10/100 * simplicity_score

/-- `AssociationMiner._rule_to_pattern` (with `context = None`). -/
def ruleToPattern (r : AssocRule) : Option APattern :=
  let triggers := r.antecedents.map itemFromString
  match parseConsequent r.consequents with
  | none => none
  | some action =>
    some
      { pattern_type := "association"
        trigger_conditions := triggers
        action_entity := action.1
        action_state := action.2.1
        action_service := action.2.2
        confidence := pyRound r.confidence 3
        support := pyRound r.support 3
        lift := pyRound r.lift 3
        conviction := pyRound r.conviction 3
        pattern_score := pyRound (calculatePatternScore r triggers.length) 3
        occurrence_count := pyInt (r.support * 100) }

/-- `AssociationMiner.mine_patterns` from the point where the rule rows
exist: the library's confidence threshold, `_filter_rules`, and
`_convert_rules_to_patterns`. -/
def minePatternsFromRules (rules : List AssocRule) : List APattern :=
  (filterRules (generateAssociationRules rules)).filterMap ruleToPattern

/-- The boundary-scenario rule of the claim: 200 transactions, 140 with
both items, 160 with the antecedent, 150 with the consequent. -/
def aliceHallRule : AssocRule :=
  ruleFromCounts ["person.alice:home"] ["light.hall:on"] 140 160 150 200

/-- A rule that passes every threshold, for the witness: 150 of 160
antecedent transactions carry the consequent, which appears in 150 of 200
transactions overall. -/
def promotableRule : AssocRule :=
  ruleFromCounts ["person.alice:home"] ["light.hall:on"] 150 160 150 200

end AssociationMiner

/-- C7: a rule is promoted to a pattern only when its confidence is at
least 0.75, its lift at least 1.2, its conviction at least 1.5, and its
consequent has exactly one item; and the boundary-scenario rule
{person.alice:home} ⇒ {light.hall:on} (confidence 7/8, lift 7/6 < 1.2)
yields no pattern. -/
theorem C7_rule_promotion_thresholds :
    (∀ (rules : List AssociationMiner.AssocRule) (p : AssociationMiner.APattern),
      p ∈ AssociationMiner.minePatternsFromRules rules →
      ∃ r ∈ rules, 75/100 ≤ r.confidence ∧ 12/10 ≤ r.lift ∧
        15/10 ≤ r.conviction ∧ r.consequents.length = 1) ∧
    (AssociationMiner.aliceHallRule.confidence = 7/8 ∧
      AssociationMiner.aliceHallRule.lift = 7/6 ∧
      ¬ (12/10 : ℚ) ≤ 7/6 ∧
      AssociationMiner.minePatternsFromRules [AssociationMiner.aliceHallRule] = []) := by
  constructor
  · intro rules p hp
    unfold AssociationMiner.minePatternsFromRules at hp
    rcases List.mem_filterMap.1 hp with ⟨r, hr, hconv⟩
    unfold AssociationMiner.filterRules at hr
    rcases List.mem_filter.1 hr with ⟨hr2, hlc⟩
    unfold AssociationMiner.generateAssociationRules at hr2
    rcases List.mem_filter.1 hr2 with ⟨hrmem, hconf⟩
    refine ⟨r, hrmem, by simpa using hconf, ?_, ?_, ?_⟩
    · have := of_decide_eq_true hlc
      exact this.1
    · have := of_decide_eq_true hlc
      exact this.2
    · unfold AssociationMiner.ruleToPattern at hconv
      unfold AssociationMiner.parseConsequent at hconv
      by_contra hne
      rw [if_pos hne] at hconv
      simp at hconv
  · refine ⟨?_, ?_, by norm_num, ?_⟩
    · norm_num [AssociationMiner.aliceHallRule, AssociationMiner.ruleFromCounts]
    · norm_num [AssociationMiner.aliceHallRule, AssociationMiner.ruleFromCounts]
    · norm_num [AssociationMiner.minePatternsFromRules, AssociationMiner.filterRules,
        AssociationMiner.generateAssociationRules, AssociationMiner.aliceHallRule,
        AssociationMiner.ruleFromCounts, List.filter]

/-- The pattern `_rule_to_pattern` builds from `promotableRule`
(confidence 15/16 rounds to 0.938, score 0.71625 rounds to 0.716). -/
def promotablePattern : AssociationMiner.APattern :=
  { pattern_type := "association"
    trigger_conditions := [("person.alice", "home")]
    action_entity := "light.hall"
    action_state := "on"
    action_service := "light.turn_on"
    confidence := 469/500
    support := 3/4
    lift := 5/4
    conviction := 4
    pattern_score := 179/250
    occurrence_count := 75 }

/-- Evaluation of the mining pipeline on the promotable rule. -/
theorem minePatterns_promotableRule :
    AssociationMiner.minePatternsFromRules [AssociationMiner.promotableRule] =
      [promotablePattern] := by
  norm_num [AssociationMiner.minePatternsFromRules,
    AssociationMiner.filterRules, AssociationMiner.generateAssociationRules,
    AssociationMiner.ruleToPattern, AssociationMiner.parseConsequent,
    AssociationMiner.itemFromString, AssociationMiner.inferService,
    AssociationMiner.calculatePatternScore, AssociationMiner.promotableRule,
    AssociationMiner.ruleFromCounts, promotablePattern, pyRound, roundHalfEven,
    pyInt, Int.fract, List.filter, List.filterMap]
  decide

/-- Witness for C7 at a concrete promoted rule. -/
theorem C7_rule_promotion_thresholds_witness :
    ∃ r ∈ [AssociationMiner.promotableRule], (75/100 : ℚ) ≤ r.confidence ∧
      (12/10 : ℚ) ≤ r.lift ∧ (15/10 : ℚ) ≤ r.conviction ∧ r.consequents.length = 1 :=
  C7_rule_promotion_thresholds.1 [AssociationMiner.promotableRule] promotablePattern
    (by rw [minePatterns_promotableRule]; exact List.mem_singleton.2 rfl)

namespace AssociationMiner

/-- An event as the transaction builder reads it. -/
structure AEvent where
  entity_id : String
  new_state : String
  timestamp : ℚ
deriving DecidableEq, Repr

/-- The `TransactionWindow` dataclass (`items` is a Python set of
`entity:state` strings; duplicates are removed here, order immaterial). -/
structure TransactionWindow where
  start_ts : ℚ
  end_ts : ℚ
  items : List String
  events : List AEvent
deriving DecidableEq, Repr

/-- `str(Item.from_event(event))`. -/
def itemOfEvent (e : AEvent) : String :=
  e.entity_id ++ ":" ++ e.new_state

/-- `AssociationMiner._create_window_at_position`: collect the events from
`start_idx` whose timestamp is below `window_start + window_size`; a window
with fewer than 2 events is `None`.  Callers guard `start_idx < len`, so
the out-of-range branch is unreachable. -/
def createWindowAtPosition (events : List AEvent) (start_idx : ℕ)
    (window_size : ℚ) : Option TransactionWindow :=
  match events.drop start_idx with
  | [] => none
  | e :: rest =>
    let window_events :=
      (e :: rest).takeWhile fun x => x.timestamp < e.timestamp + window_size
    if window_events.length < 2 then none
    else some
      { start_ts := e.timestamp
        end_ts := e.timestamp + window_size
        items := (window_events.map itemOfEvent).dedup
        events := window_events }

/-- The `while i < len(events)` loop of
`AssociationMiner._create_sliding_windows`.  The loop body reads
`window.events` on line 317 *outside* the `if window` guard, so a `None`
window (fewer than 2 events at the candidate position) raises
`AttributeError`; the error value models that exception.  On a `some`
window, `i` advances by `max(1, int(len(window.events) * 0.5))`. -/
def slidingWindowsAux (events : List AEvent) (window_size : ℚ) (i : ℕ) :
    Except String (List TransactionWindow) :=
  if _h : i < events.length then
    match createWindowAtPosition events i window_size with
    | none => .error "AttributeError: NoneType object has no attribute events"
    | some w =>
      match slidingWindowsAux events window_size (i + max 1 (w.events.length / 2)) with
      | .error msg => .error msg
      | .ok rest => .ok (if 2 ≤ w.events.length then w :: rest else rest)
  else .ok []
termination_by events.length - i
decreasing_by
  have h1 : 1 ≤ max 1 (w.events.length / 2) := le_max_left _ _
  omega

/-- `AssociationMiner._create_sliding_windows`. -/
def createSlidingWindows (events : List AEvent) (window_size : ℚ) :
    Except String (List TransactionWindow) :=
  slidingWindowsAux events window_size 0

/-- `AssociationMiner.build_transactions` (default window size 900 s):
empty input short-circuits to an empty result, otherwise the events are
sorted by timestamp and the sliding-window loop runs.  The source then
derives `(metadata, itemsets)` from the window list; the windows
themselves are returned here. -/
def build_transactions (events : List AEvent) (window_size : ℚ) :
    Except String (List TransactionWindow) :=
  if events.isEmpty then .ok []
  else
    let sorted_events := events.insertionSort fun a b => a.timestamp ≤ b.timestamp
    createSlidingWindows sorted_events window_size

/-- A `takeWhile` result is never longer than its input. -/
theorem takeWhile_len_le {α : Type} (p : α → Bool) (l : List α) :
    (l.takeWhile p).length ≤ l.length := by
  induction l with
  | nil => simp
  | cons a t ih =>
    cases h : p a <;> simp [List.takeWhile_cons, h]
    omega

/-- Inversion for `createWindowAtPosition`: a materialised window has at
least 2 events and no more than the events remaining from its position. -/
theorem createWindowAtPosition_some {events : List AEvent} {i : ℕ}
    {ws : ℚ} {w : TransactionWindow}
    (h : createWindowAtPosition events i ws = some w) :
    2 ≤ w.events.length ∧ w.events.length ≤ events.length - i := by
  unfold createWindowAtPosition at h
  rcases hdrop : events.drop i with _ | ⟨e, rest⟩
  · rw [hdrop] at h
    simp at h
  · rw [hdrop] at h
    dsimp only at h
    by_cases hlen :
        ((e :: rest).takeWhile fun x => x.timestamp < e.timestamp + ws).length < 2
    · rw [if_pos hlen] at h
      simp at h
    · rw [if_neg hlen] at h
      have hw : w.events = (e :: rest).takeWhile
          fun x => decide (x.timestamp < e.timestamp + ws) := by
        cases h.symm
        rfl
      constructor
      · rw [hw]; omega
      · rw [hw]
        have h1 : ((e :: rest).takeWhile
            fun x => decide (x.timestamp < e.timestamp + ws)).length ≤
            (e :: rest).length := takeWhile_len_le _ _
        have h2 : (e :: rest).length = events.length - i := by
          rw [← hdrop]
          exact List.length_drop i events
        omega

/-- From any in-range start position the sliding-window loop ends in the
`AttributeError`: every advance keeps `i` strictly inside the list, and
the final (or any isolated) position yields a sub-2-event window, i.e.
`None`, whose `.events` access raises. -/
theorem slidingWindowsAux_error (events : List AEvent) (ws : ℚ) :
    ∀ (n i : ℕ), events.length - i ≤ n → i < events.length →
    ∃ msg, slidingWindowsAux events ws i = .error msg := by
  intro n
  induction n with
  | zero => intro i hle hlt; omega
  | succ n ih =>
    intro i hle hlt
    rw [slidingWindowsAux.eq_def, dif_pos hlt]
    rcases hcw : createWindowAtPosition events i ws with _ | w
    · exact ⟨_, rfl⟩
    · obtain ⟨h2, hle'⟩ := createWindowAtPosition_some hcw
      have hmax : max 1 (w.events.length / 2) = w.events.length / 2 :=
        max_eq_right (by omega)
      obtain ⟨msg, hmsg⟩ := ih (i + max 1 (w.events.length / 2))
        (by omega) (by omega)
      dsimp only
      rw [hmsg]
      exact ⟨msg, rfl⟩

end AssociationMiner

/-- C1: contrary to the claim, `build_transactions` never terminates
normally on a non-empty event list: the sliding-window loop always
eventually reaches a candidate position whose window holds fewer than 2
events, `_create_window_at_position` returns `None`, and line 317's
`len(window.events)` — outside the `if window` guard — raises
`AttributeError`. -/
theorem C1_build_transactions_always_raises
    (events : List AssociationMiner.AEvent) (ws : ℚ) (h : events ≠ []) :
    ∃ msg, AssociationMiner.build_transactions events ws = .error msg := by
  unfold AssociationMiner.build_transactions
  rw [if_neg (by simpa using h)]
  unfold AssociationMiner.createSlidingWindows
  have hlen : 0 < (events.insertionSort
      fun a b => a.timestamp ≤ b.timestamp).length := by
    have hperm := List.perm_insertionSort
      (fun a b : AssociationMiner.AEvent => a.timestamp ≤ b.timestamp) events
    have := hperm.length_eq
    rw [this]
    exact List.length_pos.2 h
  exact AssociationMiner.slidingWindowsAux_error _ ws _ 0 le_rfl hlen

/-- Witness for C1: two events one second apart crash the transaction
builder. -/
theorem C1_build_transactions_always_raises_witness :
    ∃ msg, AssociationMiner.build_transactions
      [⟨"light.a", "on", 0⟩, ⟨"light.b", "on", 1⟩] 900 = .error msg :=
  C1_build_transactions_always_raises
    [⟨"light.a", "on", 0⟩, ⟨"light.b", "on", 1⟩] 900 (by simp)

/-! ## PatternEngine (`src/phase2/pattern_engine.py`) -/

namespace PatternEngine

/-- The outcomes of the three miner calls in `_mine_all_patterns`:
`Except.error` models the miner raising an exception (e.g. mining raising
from an invalid encoding). -/
structure MinerOutputs where
  assoc : Except String (List PatternValidator.VPattern)
  seq : Except String (List PatternValidator.VPattern)
  temporal : Except String (List PatternValidator.VPattern)

/-- `PatternEngine._mine_all_patterns` (lines 198-221): the three miners
run in sequence with NO per-miner `try`/`except`, so an exception from any
miner propagates out of the function. -/
def mineAllPatterns (o : MinerOutputs) : Except String (List PatternValidator.VPattern) := do
  let assoc_patterns ← o.assoc
  let seq_patterns ← o.seq
  let temp_patterns ← o.temporal
  pure (assoc_patterns ++ seq_patterns ++ temp_patterns)

/-- The mine → validate → store tail of
`PatternEngine._run_discovery_pipeline`: validated patterns are stored one
by one, and the stored count is returned. -/
def runDiscoveryPipeline (o : MinerOutputs) :
    Except String (ℕ × List PatternValidator.VPattern) := do
  let all_patterns ← mineAllPatterns o
  let validated := PatternValidator.validatePatterns all_patterns
  pure (validated.length, validated)

/-- `PatternEngine.discover_patterns` (lines 115-136): the only
`try`/`except` sits at the run boundary; any exception makes the run
return 0 with nothing validated or stored. -/
def discoverPatterns (o : MinerOutputs) : ℕ × List PatternValidator.VPattern :=
  match runDiscoveryPipeline o with
  | .error _ => (0, [])
  | .ok r => r

end PatternEngine

/-- An association pattern that passes every validator check (adjusted
score 0.85). -/
def minedAssocPattern : PatternValidator.VPattern :=
  { pattern_type := "association"
    trigger_conditions := [⟨"person.alice", "home"⟩]
    action_entity := "light.hall"
    action_state := "on"
    confidence := 9/10
    support := 1/10
    conviction := some 2
    pattern_score := 8/10
    occurrence_count := 5
    recommendation := none }

/-- A temporal pattern that passes every validator check (adjusted score
0.683). -/
def minedTemporalPattern : PatternValidator.VPattern :=
  { pattern_type := "temporal"
    trigger_conditions := [⟨"", ""⟩]
    action_entity := "light.porch"
    action_state := "on"
    confidence := 1
    support := 1/10
    conviction := none
    pattern_score := 733/1000
    occurrence_count := 10
    recommendation := none }

/-- A run where the sequence miner raises and the other two miners return
one pattern each. -/
def seqMinerFails : PatternEngine.MinerOutputs :=
  { assoc := .ok [minedAssocPattern]
    seq := .error "UnicodeDecodeError: invalid encoding"
    temporal := .ok [minedTemporalPattern] }

/-- C2 counterexample: with the sequence miner raising and the other two
miners succeeding, the claim expects the association and temporal patterns
to still be validated and stored (2 patterns — both pass validation), but
`discover_patterns` catches the exception at the run boundary and returns
0 with nothing stored. -/
theorem C2_single_miner_failure_counterexample :
    PatternEngine.discoverPatterns seqMinerFails = (0, []) ∧
    (PatternValidator.validatePatterns
      [minedAssocPattern, minedTemporalPattern]).length = 2 ∧
    (0 : ℕ) ≠ 2 := by
  refine ⟨rfl, ?_, by norm_num⟩
  norm_num +decide [PatternValidator.validatePatterns,
    PatternValidator.validateSinglePattern, PatternValidator.checkPatternValidity,
    PatternValidator.isAntiPattern, PatternValidator.containsAntiPatternKeywords,
    PatternValidator.matchesAntiPattern, PatternValidator.ANTI_PATTERN_KEYWORDS,
    PatternValidator.pyIn, PatternValidator.containsSub, PatternValidator.pyLower,
    PatternValidator.isCircularPattern, PatternValidator.failsSafetyCheck,
    PatternValidator.isSafetyEntity, PatternValidator.tooBroad,
    PatternValidator.tooSpecific, PatternValidator.recalculateScore,
    PatternValidator.calculateSimplicityBonus, PatternValidator.calculateConvictionPenalty,
    PatternValidator.clampScore, PatternValidator.determineRecommendation,
    PatternValidator.sortByScore, minedAssocPattern, minedTemporalPattern,
    pyRound, roundHalfEven, Int.fract, List.filterMap, List.insertionSort,
    List.orderedInsert]

/-- C2 amended: if ANY of the three miners raises, the exception escapes
`_mine_all_patterns` (which has no per-miner handler) and is caught only
at the run boundary in `discover_patterns`; the run returns 0 and no
pattern from any miner is validated or stored. -/
theorem C2_miner_failure_aborts_run_amended
    (o : PatternEngine.MinerOutputs)
    (h : (∃ msg, o.assoc = .error msg) ∨ (∃ msg, o.seq = .error msg) ∨
      (∃ msg, o.temporal = .error msg)) :
    PatternEngine.discoverPatterns o = (0, []) := by
  obtain ⟨a, s, t⟩ := o
  unfold PatternEngine.discoverPatterns PatternEngine.runDiscoveryPipeline
    PatternEngine.mineAllPatterns
  rcases a with msga | la
  · rfl
  · rcases s with msgs | ls
    · rfl
    · rcases t with msgt | lt
      · rfl
      · exfalso
        rcases h with ⟨m, hm⟩ | ⟨m, hm⟩ | ⟨m, hm⟩ <;> simp at hm

/-- Witness for C2's amended theorem at the concrete failing run. -/
theorem C2_miner_failure_aborts_run_amended_witness :
    PatternEngine.discoverPatterns seqMinerFails = (0, []) :=
  C2_miner_failure_aborts_run_amended seqMinerFails
    (Or.inr (Or.inl ⟨"UnicodeDecodeError: invalid encoding", rfl⟩))

/-! ## NoiseFilter (`src/phase1/noise_filter.py`, re-shipped as
`src/phase2/noise_filter.py`) -/

namespace NoiseFilter

/-- An event as the noise filter reads it: the Phase-1 pipeline
(`run_extraction.py`) builds context vectors first, so events reaching
`filter_events` already carry `seconds_since_last_change` (None for an
entity's first observation). -/
structure NEvent where
  entity_id : String
  old_state : String
  new_state : String
  timestamp : ℚ
  seconds_since_last_change : Option ℚ
deriving DecidableEq, Repr

/-- Placeholder event for out-of-range index reads (never reached under
the loop guards). -/
def dummyEvent : NEvent :=
  ⟨"", "", "", 0, none⟩

/-- An event with the two quality markers `filter_events` attaches. -/
structure FilteredEvent where
  event : NEvent
  during_flap : Bool
  quality_score : ℚ
deriving DecidableEq, Repr

/-- The inner `while` of `_detect_flapping`: move `window_start` forward
while it trails `i` and the window spans more than `flap_window` seconds. -/
def advanceStart (sorted_events : List NEvent) (ts flap_window : ℚ) (i : ℕ) :
    ℕ → ℕ
  | ws =>
    if h : ws < i ∧ ts - (sorted_events.getD ws dummyEvent).timestamp > flap_window then
      advanceStart sorted_events ts flap_window i (ws + 1)
    else ws
termination_by ws => i - ws
decreasing_by omega

/-- The outer `for i, event in enumerate(sorted_events)` loop of
`_detect_flapping`.  `acc` holds the flap periods most recent first
(`flap_periods[-1]` is its head); overlapping periods merge when the gap
is at most `flap_window`. -/
def detectFlappingLoop (sorted_events : List NEvent) (flap_window : ℚ)
    (flap_threshold : ℕ) (i ws : ℕ) (acc : List (ℚ × ℚ)) : List (ℚ × ℚ) :=
  if _h : i < sorted_events.length then
    let ts := (sorted_events.getD i dummyEvent).timestamp
    let ws' := advanceStart sorted_events ts flap_window i ws
    let events_in_window := i - ws' + 1
    let acc' :=
      if flap_threshold ≤ events_in_window then
        let period_start := (sorted_events.getD ws' dummyEvent).timestamp
        let period_end := ts
        match acc with
        | (s, e) :: rest =>
          if e ≥ period_start - flap_window then (s, period_end) :: rest
          else (period_start, period_end) :: (s, e) :: rest
        | [] => [(period_start, period_end)]
      else acc
    detectFlappingLoop sorted_events flap_window flap_threshold (i + 1) ws' acc'
  else acc.reverse
termination_by sorted_events.length - i

/-- `NoiseFilter._detect_flapping` with the default `flap_threshold = 5`
and `flap_window = 60`. -/
def detectFlapping (events : List NEvent) : List (ℚ × ℚ) :=
  if events.length < 5 then []
  else
    let sorted_events := events.insertionSort fun a b => a.timestamp ≤ b.timestamp
    detectFlappingLoop sorted_events 60 5 0 0 []

/-- `NoiseFilter._in_flap_period`. -/
def inFlapPeriod (ts : ℚ) (flap_periods : List (ℚ × ℚ)) : Bool :=
  flap_periods.any fun p => p.1 ≤ ts ∧ ts ≤ p.2

/-- The per-entity statistics of `filter_events`' first pass. -/
structure EntityStats where
  event_count : ℕ
  flap_periods : List (ℚ × ℚ)
  unique_states : ℕ
deriving DecidableEq, Repr

/-- The per-entity statistics computed in `filter_events`' first pass. -/
def entityStats (events : List NEvent) (entity_id : String) : EntityStats :=
  let entity_events := events.filter fun e => e.entity_id = entity_id
  { event_count := entity_events.length
    flap_periods := detectFlapping entity_events
    unique_states := ((entity_events.map fun e => e.new_state).dedup).length }

/-- `NoiseFilter._calculate_quality`: 1.0, times 0.3 during a flap, times
0.9 for at most 2 unique states, times 0.7 for a change under 10 s after
the previous one; rounded to 2 places. -/
def calculateQuality (e : NEvent) (during_flap : Bool) (stats : EntityStats) : ℚ :=
  let score : ℚ := 1
  let score := if during_flap then score * (3/10) else score
  let score := if stats.unique_states ≤ 2 then score * (9/10) else score
  let score :=
    match e.seconds_since_last_change with
    | some seconds_since => if seconds_since < 10 then score * (7/10) else score
    | none => score
  pyRound score 2

/-- `NoiseFilter.filter_events` with the default configuration: drop
low-activity entities (< 5 events) and unavailable/unknown transitions,
mark `during_flap`, attach the quality score. -/
def filterEvents (events : List NEvent) : List FilteredEvent :=
  events.filterMap fun e =>
    let stats := entityStats events e.entity_id
    if stats.event_count < 5 then none
    else if e.old_state = "unavailable" ∨ e.old_state = "unknown" then none
    else if e.new_state = "unavailable" ∨ e.new_state = "unknown" then none
    else
      let during_flap := inFlapPeriod e.timestamp stats.flap_periods
      some ⟨e, during_flap, calculateQuality e during_flap stats⟩

end NoiseFilter

/-- One event of the 12-event alternating burst: event `k` flips
`light.x` at `t = 2k` seconds; every event after the first follows its
predecessor by 2 s. -/
def burstEvent (k : ℕ) : NoiseFilter.NEvent :=
  { entity_id := "light.x"
    old_state := if k % 2 = 0 then "off" else "on"
    new_state := if k % 2 = 0 then "on" else "off"
    timestamp := (2 * k : ℕ)
    seconds_since_last_change := if k = 0 then none else some 2 }

/-- Twelve alternating on/off events within 30 seconds (then silence), as
enriched by the pipeline before filtering. -/
def flapBurst : List NoiseFilter.NEvent :=
  [burstEvent 0, burstEvent 1, burstEvent 2, burstEvent 3, burstEvent 4,
   burstEvent 5, burstEvent 6, burstEvent 7, burstEvent 8, burstEvent 9,
   burstEvent 10, burstEvent 11]

/-- C6 counterexample: in the enriched 12-event burst the second event
(2 s after the first) is marked during_flap but gets quality
0.3 × 0.9 × 0.7 = 0.189, rounded to 0.19 — not the claimed 0.27 — because
`_calculate_quality` also applies the rapid-change factor to every event
whose `seconds_since_last_change` is below 10 s. -/
theorem C6_flap_quality_counterexample :
    ((NoiseFilter.filterEvents flapBurst).map fun fe => fe.quality_score) =
      27/100 :: List.replicate 11 (19/100) ∧
    (19/100 : ℚ) ≠ 27/100 := by
  constructor
  · with_unfolding_all decide
  · norm_num

/-- C6 amended: the burst yields exactly one flap period spanning the
first to the last event, all 12 events survive the filter marked
`during_flap = true`, and the quality score is 0.3 × 0.9 = 0.27 only for
the first event of the burst (whose `seconds_since_last_change` is None);
the 11 later events, enriched with a 2 s gap before filtering, receive
0.3 × 0.9 × 0.7 rounded to 0.19. -/
theorem C6_flap_burst_amended :
    NoiseFilter.detectFlapping
      (flapBurst.filter fun e => e.entity_id = "light.x") = [(0, 22)] ∧
    (NoiseFilter.filterEvents flapBurst).length = 12 ∧
    (∀ fe ∈ NoiseFilter.filterEvents flapBurst, fe.during_flap = true) ∧
    ((NoiseFilter.filterEvents flapBurst).map fun fe =>
      (fe.event.seconds_since_last_change, fe.quality_score)) =
      (none, 27/100) :: (List.range 11).map (fun _ => (some 2, 19/100)) := by
  refine ⟨?_, ?_, ?_, ?_⟩ <;> with_unfolding_all decide

/-! ## PatternStorage (`src/phase2/pattern_storage.py`) -/

namespace PatternStorage

/-- The JSON values `json.dumps` serialises in `_calculate_pattern_hash`:
trigger lists and action dictionaries.  Objects keep insertion order, as
Python dicts do. -/
inductive Json where
  | null : Json
  | bool : Bool → Json
  | num : Int → Json
  | str : String → Json
  | arr : List Json → Json
  | obj : List (String × Json) → Json

/-- The sixteen lowercase hex digits. -/
def hexDigits : List Char :=
  "0123456789abcdef".data

/-- Hex digit for a nibble. -/
def hexChar (n : ℕ) : Char :=
  hexDigits.getD n '0'

/-- Four-digit hex rendering of a code unit for a `\uXXXX` escape. -/
def hex4 (n : ℕ) : List Char :=
  [hexChar (n / 4096 % 16), hexChar (n / 256 % 16), hexChar (n / 16 % 16), hexChar (n % 16)]

/-- The `\uXXXX` escape for a code point (surrogate pair above U+FFFF),
as `json.dumps` with its default `ensure_ascii=True` writes it. -/
def uEscape (n : ℕ) : List Char :=
  if n < 65536 then '\\' :: 'u' :: hex4 n
  else
    let m := n - 65536
    ('\\' :: 'u' :: hex4 (55296 + m / 1024)) ++ ('\\' :: 'u' :: hex4 (56320 + m % 1024))

/-- Escaping of one character inside a JSON string literal, following
`json.dumps` defaults: the two-character escapes for quote, backslash and
the common control characters, `\uXXXX` for other control characters and
for everything at or above U+007F. -/
def escapeChar (c : Char) : List Char :=
  if c = '"' then ['\\', '"']
  else if c = '\\' then ['\\', '\\']
  else if c = '\n' then ['\\', 'n']
  else if c = '\t' then ['\\', 't']
  else if c = '\r' then ['\\', 'r']
  else if c.toNat = 8 then ['\\', 'b']
  else if c.toNat = 12 then ['\\', 'f']
  else if c.toNat < 32 ∨ 127 ≤ c.toNat then uEscape c.toNat
  else [c]

/-- A JSON string literal: quote, escaped characters, quote. -/
def encodeJsonString (s : String) : List Char :=
  '"' :: (s.data.flatMap escapeChar) ++ ['"']

/-- Decimal rendering of an integer. -/
def intChars (i : ℤ) : List Char :=
  if i < 0 then '-' :: Nat.toDigits 10 (-i).toNat
  else Nat.toDigits 10 i.toNat

mutual

/-- `json.dumps` with the default separators `", "` and `": "` and
`ensure_ascii=True`, rendering objects in stored (insertion) order.  For
`sort_keys=True` see `sortJsonKeys` below. -/
def dumpsVal : Json → List Char
  | .null => ['n', 'u', 'l', 'l']
  | .bool b => if b then ['t', 'r', 'u', 'e'] else ['f', 'a', 'l', 's', 'e']
  | .num i => intChars i
  | .str s => encodeJsonString s
  | .arr xs => '[' :: dumpsArrItems xs ++ [']']
  | .obj kvs => '{' :: dumpsObjItems kvs ++ ['}']

/-- Comma-space-separated renderings of array members. -/
def dumpsArrItems : List Json → List Char
  | [] => []
  | [x] => dumpsVal x
  | x :: y :: rest => dumpsVal x ++ ',' :: ' ' :: dumpsArrItems (y :: rest)

/-- Comma-space-separated `"key": value` renderings of object members. -/
def dumpsObjItems : List (String × Json) → List Char
  | [] => []
  | [kv] => encodeJsonString kv.1 ++ ':' :: ' ' :: dumpsVal kv.2
  | kv :: y :: rest =>
    encodeJsonString kv.1 ++ ':' :: ' ' :: dumpsVal kv.2 ++ ',' :: ' ' ::
      dumpsObjItems (y :: rest)

end

/-- Python's `<` on strings: lexicographic comparison by code point. -/
def charListLt : List Char → List Char → Bool
  | [], [] => false
  | [], _ :: _ => true
  | _ :: _, [] => false
  | a :: as, b :: bs => if a < b then true else if b < a then false else charListLt as bs

/-- Python's `<=` on strings. -/
def pyStrLe (a b : String) : Bool :=
  !(charListLt b.data a.data)

/-- Recursively sort every object's keys.  Serialising the result with
`dumpsVal` equals `json.dumps(..., sort_keys=True)` on the original. -/
def sortJsonKeys : Json → Json
  | .null => .null
  | .bool b => .bool b
  | .num i => .num i
  | .str s => .str s
  | .arr xs => .arr (xs.attach.map fun x => sortJsonKeys x.1)
  | .obj kvs =>
    .obj (List.insertionSort (fun a b => pyStrLe a.1 b.1 = true)
      (kvs.attach.map fun kv => (kv.1.1, sortJsonKeys kv.1.2)))
termination_by j => sizeOf j
decreasing_by
  all_goals simp only [Json.arr.sizeOf_spec, Json.obj.sizeOf_spec]
  all_goals try (have h1 := List.sizeOf_lt_of_mem x.2; omega)
  all_goals
    obtain ⟨⟨k, v⟩, hk⟩ := kv
    have h1 := List.sizeOf_lt_of_mem hk
    simp only [Prod.mk.sizeOf_spec] at h1 ⊢
    omega

end PatternStorage

namespace PatternStorage

/-- UTF-8 encoding of one character (`str.encode()`). -/
def utf8EncodeChar (c : Char) : List ℕ :=
  let n := c.toNat
  if n < 128 then [n]
  else if n < 2048 then [192 + n / 64, 128 + n % 64]
  else if n < 65536 then [224 + n / 4096, 128 + n / 64 % 64, 128 + n % 64]
  else [240 + n / 262144, 128 + n / 4096 % 64, 128 + n / 64 % 64, 128 + n % 64]

/-- UTF-8 encoding of a character list (`str.encode()`). -/
def utf8Encode (s : List Char) : List ℕ :=
  s.flatMap utf8EncodeChar

/-- Reduction to a 32-bit word. -/
def w32 (n : ℕ) : ℕ :=
  n % 4294967296

/-- Right rotation of a 32-bit word, written arithmetically:
`(x >>> n) ||| ((x &&& (2^n − 1)) <<< (32 − n))` has no overlapping bits, so
it equals this sum. -/
def rotr (n x : ℕ) : ℕ :=
  x / 2 ^ n + x % 2 ^ n * 2 ^ (32 - n)

/-- Bitwise complement within 32 bits. -/
def not32 (x : ℕ) : ℕ :=
  4294967295 - x

/-- The SHA-256 `Ch` function. -/
def shaCh (x y z : ℕ) : ℕ :=
  Nat.xor (Nat.land x y) (Nat.land (not32 x) z)

/-- The SHA-256 `Maj` function. -/
def shaMaj (x y z : ℕ) : ℕ :=
  Nat.xor (Nat.xor (Nat.land x y) (Nat.land x z)) (Nat.land y z)

/-- The SHA-256 `Σ0` function. -/
def bigSigma0 (x : ℕ) : ℕ :=
  Nat.xor (Nat.xor (rotr 2 x) (rotr 13 x)) (rotr 22 x)

/-- The SHA-256 `Σ1` function. -/
def bigSigma1 (x : ℕ) : ℕ :=
  Nat.xor (Nat.xor (rotr 6 x) (rotr 11 x)) (rotr 25 x)

/-- The SHA-256 `σ0` function. -/
def smallSigma0 (x : ℕ) : ℕ :=
  Nat.xor (Nat.xor (rotr 7 x) (rotr 18 x)) (x / 8)

/-- The SHA-256 `σ1` function. -/
def smallSigma1 (x : ℕ) : ℕ :=
  Nat.xor (Nat.xor (rotr 17 x) (rotr 19 x)) (x / 1024)

/-- The SHA-256 round constants. -/
def shaK : List ℕ :=
  [1116352408, 1899447441, 3049323471, 3921009573,
   961987163, 1508970993, 2453635748, 2870763221,
   3624381080, 310598401, 607225278, 1426881987,
   1925078388, 2162078206, 2614888103, 3248222580,
   3835390401, 4022224774, 264347078, 604807628,
   770255983, 1249150122, 1555081692, 1996064986,
   2554220882, 2821834349, 2952996808, 3210313671,
   3336571891, 3584528711, 113926993, 338241895,
   666307205, 773529912, 1294757372, 1396182291,
   1695183700, 1986661051, 2177026350, 2456956037,
   2730485921, 2820302411, 3259730800, 3345764771,
   3516065817, 3600352804, 4094571909, 275423344,
   430227734, 506948616, 659060556, 883997877,
   958139571, 1322822218, 1537002063, 1747873779,
   1955562222, 2024104815, 2227730452, 2361852424,
   2428436474, 2756734187, 3204031479, 3329325298]

/-- The eight working words of the SHA-256 state. -/
structure Hash8 where
  a : ℕ
  b : ℕ
  c : ℕ
  d : ℕ
  e : ℕ
  f : ℕ
  g : ℕ
  h : ℕ

/-- The SHA-256 initial state. -/
def shaH0 : Hash8 :=
  ⟨1779033703, 3144134277, 1013904242, 2773480762,
   1359893119, 2600822924, 528734635, 1541459225⟩

/-- Big-endian bytes of the 64-bit message bit length. -/
def lenBytes (bitLen : ℕ) : List ℕ :=
  [bitLen / 2 ^ 56 % 256, bitLen / 2 ^ 48 % 256, bitLen / 2 ^ 40 % 256,
   bitLen / 2 ^ 32 % 256, bitLen / 2 ^ 24 % 256, bitLen / 2 ^ 16 % 256,
   bitLen / 2 ^ 8 % 256, bitLen % 256]

/-- SHA-256 padding: a 0x80 byte, zeros to 56 mod 64, then the bit length. -/
def shaPad (msg : List ℕ) : List ℕ :=
  let len := msg.length
  let padZeros := (120 - (len + 1) % 64) % 64
  msg ++ 128 :: List.replicate padZeros 0 ++ lenBytes (8 * len)

/-- Split the padded message into 64-byte blocks. -/
def toBlocks (l : List ℕ) : List (List ℕ) :=
  if h : l = [] then []

  else (l.take 64) :: toBlocks (l.drop 64)
termination_by l.length
decreasing_by
  have : l.length ≠ 0 := fun hl => h (List.eq_nil_of_length_eq_zero hl)
  simp only [List.length_drop]
  omega

/-- Big-endian 32-bit words from bytes. -/
def bytesToWords : List ℕ → List ℕ
  | a :: b :: c :: d :: rest =>
    (a * 16777216 + b * 65536 + c * 256 + d) :: bytesToWords rest
  | _ => []

/-- Extend the sixteen block words to the 64-entry message schedule. -/
def buildSchedule (w : List ℕ) : List ℕ :=
  if _h : 64 ≤ w.length then w
  else
    buildSchedule (w ++ [w32 (smallSigma1 (w.getD (w.length - 2) 0) +
      w.getD (w.length - 7) 0 + smallSigma0 (w.getD (w.length - 15) 0) +
      w.getD (w.length - 16) 0)])
termination_by 64 - w.length
decreasing_by
  simp only [List.length_append, List.length_cons, List.length_nil]
  omega

/-- One round of the SHA-256 compression function. -/
def compressRound (W : List ℕ) (t : ℕ) (s : Hash8) : Hash8 :=
  let T1 := w32 (s.h + bigSigma1 s.e + shaCh s.e s.f s.g + shaK.getD t 0 + W.getD t 0)
  let T2 := w32 (bigSigma0 s.a + shaMaj s.a s.b s.c)
  ⟨w32 (T1 + T2), s.a, s.b, s.c, w32 (s.d + T1), s.e, s.f, s.g⟩

/-- The 64 compression rounds. -/
def compressLoop (W : List ℕ) (t : ℕ) (s : Hash8) : Hash8 :=
  if 64 ≤ t then s
  else compressLoop W (t + 1) (compressRound W t s)
termination_by 64 - t

/-- Process one 64-byte block. -/
def processBlock (s : Hash8) (block : List ℕ) : Hash8 :=
  let W := buildSchedule (bytesToWords block)
  let r := compressLoop W 0 s
  ⟨w32 (s.a + r.a), w32 (s.b + r.b), w32 (s.c + r.c), w32 (s.d + r.d),
   w32 (s.e + r.e), w32 (s.f + r.f), w32 (s.g + r.g), w32 (s.h + r.h)⟩

/-- The SHA-256 state after hashing a byte message. -/
def sha256State (msg : List ℕ) : Hash8 :=
  (toBlocks (shaPad msg)).foldl processBlock shaH0

/-- Eight hex digits of one 32-bit word, most significant nibble first. -/
def wordHexChars (w : ℕ) : List Char :=
  [hexChar (w / 268435456 % 16), hexChar (w / 16777216 % 16),
   hexChar (w / 1048576 % 16), hexChar (w / 65536 % 16),
   hexChar (w / 4096 % 16), hexChar (w / 256 % 16),
   hexChar (w / 16 % 16), hexChar (w % 16)]

/-- `hashlib.sha256(...).hexdigest()`: 64 lowercase hex characters. -/
def sha256HexChars (msg : List ℕ) : List Char :=
  let s := sha256State msg
  wordHexChars s.a ++ wordHexChars s.b ++ wordHexChars s.c ++ wordHexChars s.d ++
    wordHexChars s.e ++ wordHexChars s.f ++ wordHexChars s.g ++ wordHexChars s.h

/-- `PatternStorage._calculate_pattern_hash`: `trigger_sig` is
`json.dumps(sorted(json.dumps(triggers)), sort_keys=True)` — note
`sorted` of a *string*, i.e. the sorted list of its characters —
`action_sig` is `json.dumps(action, sort_keys=True)`, and the hash is the
first 16 hex characters of SHA-256 over `trigger_sig|action_sig`. -/
def calculatePatternHash (triggers : List Json) (action : Json) : List Char :=
  let inner := dumpsVal (Json.arr triggers)
  let sorted_chars := List.insertionSort (fun a b : Char => a ≤ b) inner
  let trigger_sig :=
    dumpsVal (sortJsonKeys (Json.arr (sorted_chars.map fun c => Json.str (String.mk [c]))))
  let action_sig := dumpsVal (sortJsonKeys action)
  let combined := trigger_sig ++ '|' :: action_sig
  (sha256HexChars (utf8Encode combined)).take 16

end PatternStorage

namespace PatternStorage

/-- Rendering an array body is, up to reordering, the renderings of its
members plus one `", "` separator per gap: permutation-invariant content. -/
theorem dumpsArrItems_perm (l : List Json) :
    (dumpsArrItems l).Perm
      ((l.map dumpsVal).flatten ++ (List.replicate (l.length - 1) [',', ' ']).flatten) := by
  induction l with
  | nil => simp [dumpsArrItems]
  | cons x tail ih =>
    cases tail with
    | nil => simp [dumpsArrItems]
    | cons y rest =>
      simp only [dumpsArrItems, List.map_cons, List.flatten_cons, List.length_cons,
        Nat.add_sub_cancel, List.replicate_succ]
      have key : dumpsVal x ++ ',' :: ' ' :: dumpsArrItems (y :: rest) =
          dumpsVal x ++ ([',', ' '] ++ dumpsArrItems (y :: rest)) := by simp
      rw [key]
      have step1 : ([',', ' '] ++ dumpsArrItems (y :: rest)).Perm
          ([',', ' '] ++ ((dumpsVal y ++ (rest.map dumpsVal).flatten) ++
            (List.replicate ((y :: rest).length - 1) [',', ' ']).flatten)) := by
        simpa using ih.append_left [',', ' ']
      have step2 : ([',', ' '] ++ ((dumpsVal y ++ (rest.map dumpsVal).flatten) ++
          (List.replicate ((y :: rest).length - 1) [',', ' ']).flatten)).Perm
          ((dumpsVal y ++ (rest.map dumpsVal).flatten) ++ ([',', ' '] ++
            (List.replicate ((y :: rest).length - 1) [',', ' ']).flatten)) :=
        List.perm_append_comm_assoc _ _ _
      have chain := (step1.trans step2).append_left (dumpsVal x)
      refine chain.trans ?_
      simp [List.append_assoc]

/-- The serialised characters of an array are permutation-invariant as a
multiset: permuting the members permutes the characters. -/
theorem dumpsVal_arr_perm {t₁ t₂ : List Json} (h : t₁.Perm t₂) :
    (dumpsVal (Json.arr t₁)).Perm (dumpsVal (Json.arr t₂)) := by
  have harr : ∀ l : List Json, dumpsVal (Json.arr l) = '[' :: dumpsArrItems l ++ [']'] :=
    fun l => rfl
  rw [harr, harr]
  refine List.Perm.cons '[' (List.Perm.append ?_ (List.Perm.refl _))
  have h1 := dumpsArrItems_perm t₁
  have h2 := dumpsArrItems_perm t₂
  refine h1.trans (List.Perm.trans ?_ h2.symm)
  refine List.Perm.append ?_ ?_
  · exact (h.map dumpsVal).flatten
  · rw [h.length_eq]

/-- Sorting the serialised characters erases the member order entirely. -/
theorem sortedChars_eq_of_perm {t₁ t₂ : List Json} (h : t₁.Perm t₂) :
    List.insertionSort (fun a b : Char => a ≤ b) (dumpsVal (Json.arr t₁)) =
      List.insertionSort (fun a b : Char => a ≤ b) (dumpsVal (Json.arr t₂)) := by
  haveI ht : IsTotal Char fun a b : Char => a ≤ b := ⟨fun a b => le_total a b⟩
  haveI htr : IsTrans Char fun a b : Char => a ≤ b :=
    ⟨fun a b c h1 h2 => le_trans h1 h2⟩
  haveI has : IsAntisymm Char fun a b : Char => a ≤ b :=
    ⟨fun a b h1 h2 => le_antisymm h1 h2⟩
  exact @List.eq_of_perm_of_sorted Char (fun a b : Char => a ≤ b) has _ _
    ((List.perm_insertionSort _ _).trans
      ((dumpsVal_arr_perm h).trans (List.perm_insertionSort _ _).symm))
    (List.sorted_insertionSort _ _) (List.sorted_insertionSort _ _)

end PatternStorage

namespace PatternStorage

/-- A row of the `patterns` table. -/
structure PatternRow where
  pattern_id : ℕ
  pattern_type : String
  pattern_hash : List Char
  trigger_conditions : List Json
  action_target : Json
  confidence : ℚ
  support : ℚ
  lift : Option ℚ
  conviction : Option ℚ
  pattern_score : ℚ
  first_seen : ℚ
  last_seen : ℚ
  occurrence_count : ℤ
  user_feedback : Option String
  automation_id : Option String
  suggestion_shown : Bool
  status : String
  deprecated_by : Option ℕ
  created_at : ℚ
  updated_at : ℚ

/-- The incoming pattern dictionary `store_pattern` receives.  Optional
keys are read with `.get`, hence the `Option` fields. -/
structure PatternInput where
  pattern_type : String
  trigger_conditions : List Json
  action_target : Json
  confidence : ℚ
  support : ℚ
  lift : Option ℚ
  conviction : Option ℚ
  pattern_score : ℚ
  occurrence_count : Option ℤ

/-- The hash `store_pattern` computes for an incoming pattern. -/
def hashOfInput (p : PatternInput) : List Char :=
  calculatePatternHash p.trigger_conditions p.action_target

/-- `PatternStorage._update_existing_pattern`: the SQL UPDATE overwrites
the metric columns, `last_seen`, `occurrence_count` (old count plus the
incoming count, 1 when absent) and `updated_at` of the row with the found
`pattern_id`, and touches nothing else. -/
def updateExistingPattern (table : List PatternRow) (pattern_id : ℕ)
    (old_count : ℤ) (p : PatternInput) (now : ℚ) : List PatternRow × ℕ :=
  let new_count := old_count + p.occurrence_count.getD 1
  (table.map fun r =>
    if r.pattern_id = pattern_id then
      { r with
        confidence := p.confidence
        support := p.support
        lift := p.lift
        conviction := p.conviction
        pattern_score := p.pattern_score
        last_seen := now
        occurrence_count := new_count
        updated_at := now }
    else r,
   pattern_id)

/-- `PatternStorage._insert_new_pattern`: the INSERT with first_seen =
last_seen = now and the defaults of the schema (`status 'active'`,
`suggestion_shown 0`, NULL feedback). -/
def insertNewPattern (table : List PatternRow) (p : PatternInput)
    (pattern_hash : List Char) (now : ℚ) (next_id : ℕ) : List PatternRow × ℕ :=
  (table ++ [{
      pattern_id := next_id
      pattern_type := p.pattern_type
      pattern_hash := pattern_hash
      trigger_conditions := p.trigger_conditions
      action_target := p.action_target
      confidence := p.confidence
      support := p.support
      lift := p.lift
      conviction := p.conviction
      pattern_score := p.pattern_score
      first_seen := now
      last_seen := now
      occurrence_count := p.occurrence_count.getD 1
      user_feedback := none
      automation_id := none
      suggestion_shown := false
      status := "active"
      deprecated_by := none
      created_at := now
      updated_at := now }],
   next_id)

/-- `PatternStorage.store_pattern`: hash the (triggers, action) pair, look
the hash up (`_get_existing_pattern` fetches `pattern_id` and
`occurrence_count` of the first matching row), then update or insert. -/
def store_pattern (table : List PatternRow) (p : PatternInput) (now : ℚ)
    (next_id : ℕ) : List PatternRow × ℕ :=
  let pattern_hash := hashOfInput p
  match table.find? fun r => r.pattern_hash = pattern_hash with
  | some row => updateExistingPattern table row.pattern_id row.occurrence_count p now
  | none => insertNewPattern table p pattern_hash now next_id

end PatternStorage

/-- A lowercase hexadecimal digit. -/
def isHexDigitChar (c : Char) : Bool :=
  ('0' ≤ c && c ≤ '9') || ('a' ≤ c && c ≤ 'f')

/-- Any index into the hex-digit table produces a hex digit (out-of-range
reads return the default '0'). -/
theorem hexChar_isHexDigit (n : ℕ) :
    isHexDigitChar (PatternStorage.hexChar n) = true := by
  unfold PatternStorage.hexChar PatternStorage.hexDigits
  rcases Nat.lt_or_ge n 16 with h | h
  · interval_cases n <;> decide
  · rw [List.getD_eq_default _ _ (by simpa using h)]
    decide

/-- Every character of a SHA-256 hex digest is a hex digit. -/
theorem sha256HexChars_hex (m : List ℕ) :
    ∀ c ∈ PatternStorage.sha256HexChars m, isHexDigitChar c = true := by
  intro c hc
  have hword : ∀ (w : ℕ), ∀ c' ∈ PatternStorage.wordHexChars w, isHexDigitChar c' = true := by
    intro w c' hc'
    simp only [PatternStorage.wordHexChars, List.mem_cons, List.not_mem_nil,
      or_false] at hc'
    rcases hc' with rfl | rfl | rfl | rfl | rfl | rfl | rfl | rfl <;>
      exact hexChar_isHexDigit _
  simp only [PatternStorage.sha256HexChars, List.mem_append] at hc
  rcases hc with ((((((h | h) | h) | h) | h) | h) | h) | h <;> exact hword _ _ h

/-- A SHA-256 hex digest has 64 characters. -/
theorem sha256HexChars_length (m : List ℕ) :
    (PatternStorage.sha256HexChars m).length = 64 := by
  simp [PatternStorage.sha256HexChars, PatternStorage.wordHexChars]

/-- C4: the stored pattern hash is a deterministic function of the pair
(trigger_conditions, action_target) only — it is 16 hex characters,
permuting the trigger list leaves it unchanged (sorting the serialised
characters erases member order), and two patterns differing only in
metrics or occurrence counts hash identically (the hash never reads those
fields). -/
theorem C4_pattern_hash_canonical :
    (∀ (t₁ t₂ : List PatternStorage.Json) (a : PatternStorage.Json),
      t₁.Perm t₂ →
      PatternStorage.calculatePatternHash t₁ a =
        PatternStorage.calculatePatternHash t₂ a) ∧
    (∀ (t : List PatternStorage.Json) (a : PatternStorage.Json),
      (PatternStorage.calculatePatternHash t a).length = 16 ∧
      ∀ c ∈ PatternStorage.calculatePatternHash t a, isHexDigitChar c = true) ∧
    (∀ p q : PatternStorage.PatternInput,
      p.trigger_conditions = q.trigger_conditions →
      p.action_target = q.action_target →
      PatternStorage.hashOfInput p = PatternStorage.hashOfInput q) := by
  refine ⟨?_, ?_, ?_⟩
  · intro t₁ t₂ a h
    simp only [PatternStorage.calculatePatternHash]
    rw [PatternStorage.sortedChars_eq_of_perm h]
  · intro t a
    constructor
    · simp only [PatternStorage.calculatePatternHash]
      rw [List.length_take, sha256HexChars_length]
      omega
    · intro c hc
      simp only [PatternStorage.calculatePatternHash] at hc
      exact sha256HexChars_hex _ c (List.take_subset 16 _ hc)
  · intro p q h1 h2
    unfold PatternStorage.hashOfInput
    rw [h1, h2]

/-- A trigger dictionary as the association miner emits it. -/
def trigAlice : PatternStorage.Json :=
  .obj [("entity_id", .str "person.alice"), ("state", .str "home"), ("context", .null)]

/-- A second trigger dictionary. -/
def trigMotion : PatternStorage.Json :=
  .obj [("entity_id", .str "binary_sensor.motion"), ("state", .str "on"), ("context", .null)]

/-- An action dictionary. -/
def actHall : PatternStorage.Json :=
  .obj [("entity_id", .str "light.hall"), ("state", .str "on"), ("service", .str "light.turn_on")]

/-- A stored-pattern input with one set of metrics. -/
def inputHighMetrics : PatternStorage.PatternInput :=
  { pattern_type := "association"
    trigger_conditions := [trigAlice, trigMotion]
    action_target := actHall
    confidence := 9/10
    support := 1/10
    lift := some (3/2)
    conviction := some 2
    pattern_score := 4/5
    occurrence_count := some 5 }

/-- The same triggers and action with entirely different metrics. -/
def inputLowMetrics : PatternStorage.PatternInput :=
  { pattern_type := "association"
    trigger_conditions := [trigAlice, trigMotion]
    action_target := actHall
    confidence := 1/2
    support := 2/10
    lift := none
    conviction := none
    pattern_score := 1/5
    occurrence_count := none }

/-- Witness for C4 at concrete triggers, action and metric variations. -/
theorem C4_pattern_hash_canonical_witness :
    PatternStorage.calculatePatternHash [trigAlice, trigMotion] actHall =
      PatternStorage.calculatePatternHash [trigMotion, trigAlice] actHall ∧
    (PatternStorage.calculatePatternHash [trigAlice, trigMotion] actHall).length = 16 ∧
    (∀ c ∈ PatternStorage.calculatePatternHash [trigAlice, trigMotion] actHall,
      isHexDigitChar c = true) ∧
    PatternStorage.hashOfInput inputHighMetrics = PatternStorage.hashOfInput inputLowMetrics :=
  ⟨C4_pattern_hash_canonical.1 [trigAlice, trigMotion] [trigMotion, trigAlice] actHall
      (List.Perm.swap trigMotion trigAlice []),
   (C4_pattern_hash_canonical.2.1 [trigAlice, trigMotion] actHall).1,
   (C4_pattern_hash_canonical.2.1 [trigAlice, trigMotion] actHall).2,
   C4_pattern_hash_canonical.2.2 inputHighMetrics inputLowMetrics rfl rfl⟩

/-- C5: when `store_pattern` finds an existing row with the incoming
pattern's hash, it updates in place (no insert): the occurrence count
becomes the old count plus the incoming count (1 when absent), the metric
columns and `last_seen` are overwritten, and `first_seen`, `pattern_hash`,
`pattern_type`, `trigger_conditions`, `action_target`, `user_feedback`,
`status` and `suggestion_shown` are untouched; rows with other ids are
left as they were. -/
theorem C5_upsert_updates_and_frames
    (table : List PatternStorage.PatternRow) (p : PatternStorage.PatternInput)
    (now : ℚ) (next_id : ℕ) (row : PatternStorage.PatternRow)
    (hfind : (table.find? fun r => r.pattern_hash = PatternStorage.hashOfInput p) =
      some row) :
    ((PatternStorage.store_pattern table p now next_id).1.length = table.length) ∧
    ((PatternStorage.store_pattern table p now next_id).2 = row.pattern_id) ∧
    (∃ row' ∈ (PatternStorage.store_pattern table p now next_id).1,
      row'.occurrence_count = row.occurrence_count + p.occurrence_count.getD 1 ∧
      row'.confidence = p.confidence ∧ row'.support = p.support ∧
      row'.lift = p.lift ∧ row'.conviction = p.conviction ∧
      row'.pattern_score = p.pattern_score ∧ row'.last_seen = now ∧
      row'.first_seen = row.first_seen ∧ row'.pattern_hash = row.pattern_hash ∧
      row'.pattern_type = row.pattern_type ∧
      row'.trigger_conditions = row.trigger_conditions ∧
      row'.action_target = row.action_target ∧
      row'.user_feedback = row.user_feedback ∧ row'.status = row.status ∧
      row'.suggestion_shown = row.suggestion_shown) ∧
    (∀ r ∈ table, r.pattern_id ≠ row.pattern_id →
      r ∈ (PatternStorage.store_pattern table p now next_id).1) := by
  have hstore : PatternStorage.store_pattern table p now next_id =
      PatternStorage.updateExistingPattern table row.pattern_id
        row.occurrence_count p now := by
    simp only [PatternStorage.store_pattern]
    rw [hfind]
  have hrowmem : row ∈ table := List.mem_of_find?_eq_some hfind
  rw [hstore]
  unfold PatternStorage.updateExistingPattern
  dsimp only
  refine ⟨List.length_map _ _, rfl, ?_, ?_⟩
  · refine ⟨_, List.mem_map_of_mem _ hrowmem, ?_⟩
    rw [if_pos rfl]
    exact ⟨rfl, rfl, rfl, rfl, rfl, rfl, rfl, rfl, rfl, rfl, rfl, rfl, rfl, rfl, rfl⟩
  · intro r hr hne
    have : (if r.pattern_id = row.pattern_id then
        { r with
          confidence := p.confidence
          support := p.support
          lift := p.lift
          conviction := p.conviction
          pattern_score := p.pattern_score
          last_seen := now
          occurrence_count := row.occurrence_count + p.occurrence_count.getD 1
          updated_at := now }
      else r) = r := if_neg hne
    rw [← this]
    exact List.mem_map_of_mem _ hr

/-- A stored row carrying the hash of `inputHighMetrics`, with its own
older metrics, feedback and timestamps. -/
def storedHallRow : PatternStorage.PatternRow :=
  { pattern_id := 1
    pattern_type := "association"
    pattern_hash := PatternStorage.hashOfInput inputHighMetrics
    trigger_conditions := [trigAlice, trigMotion]
    action_target := actHall
    confidence := 8/10
    support := 1/10
    lift := some 1
    conviction := some 1
    pattern_score := 7/10
    first_seen := 100
    last_seen := 200
    occurrence_count := 3
    user_feedback := some "approved"
    automation_id := none
    suggestion_shown := true
    status := "active"
    deprecated_by := none
    created_at := 100
    updated_at := 200 }

/-- Witness for C5: storing `inputHighMetrics` into a one-row table whose
row already carries its hash updates that row. -/
theorem C5_upsert_updates_and_frames_witness :
    ((PatternStorage.store_pattern [storedHallRow] inputHighMetrics 300 2).1.length =
      [storedHallRow].length) ∧
    ((PatternStorage.store_pattern [storedHallRow] inputHighMetrics 300 2).2 =
      storedHallRow.pattern_id) ∧
    (∃ row' ∈ (PatternStorage.store_pattern [storedHallRow] inputHighMetrics 300 2).1,
      row'.occurrence_count = storedHallRow.occurrence_count +
        inputHighMetrics.occurrence_count.getD 1 ∧
      row'.confidence = inputHighMetrics.confidence ∧
      row'.support = inputHighMetrics.support ∧
      row'.lift = inputHighMetrics.lift ∧
      row'.conviction = inputHighMetrics.conviction ∧
      row'.pattern_score = inputHighMetrics.pattern_score ∧
      row'.last_seen = 300 ∧
      row'.first_seen = storedHallRow.first_seen ∧
      row'.pattern_hash = storedHallRow.pattern_hash ∧
      row'.pattern_type = storedHallRow.pattern_type ∧
      row'.trigger_conditions = storedHallRow.trigger_conditions ∧
      row'.action_target = storedHallRow.action_target ∧
      row'.user_feedback = storedHallRow.user_feedback ∧
      row'.status = storedHallRow.status ∧
      row'.suggestion_shown = storedHallRow.suggestion_shown) ∧
    (∀ r ∈ [storedHallRow], r.pattern_id ≠ storedHallRow.pattern_id →
      r ∈ (PatternStorage.store_pattern [storedHallRow] inputHighMetrics 300 2).1) :=
  C5_upsert_updates_and_frames [storedHallRow] inputHighMetrics 300 2 storedHallRow
    (List.find?_cons_of_pos [] (decide_eq_true rfl))
